import Mathlib

/-!
Verification of the SEPD telemetry decoder (verath/sep-data).

The development shallowly embeds the Rust sources:
  * src/src/parser/mod.rs    — packet framing and the recursive variant decoder
  * src/src/client.rs        — the TCP stream reader and client state machine
  * src/src/se_types/types.rs — wire data types and the type-tag table

Bytes are modelled as `Nat` (one list element per wire byte).  IEEE-754 floats
are modelled by their big-endian bit patterns as `Nat`: the program only ever
transports float bytes, it never computes with them.  Rust `String` values are
modelled as their UTF-8 byte lists, validated by an explicit UTF-8 checker
mirroring `String::from_utf8`.

The sources parse with `nom` combinators.  A parser outcome is modelled by
`PResult`: `ok rest val` for success, `err` for a recoverable `nom`
`Err::Error`/`Err::Failure`, `incomplete` for `Err::Incomplete` of the
streaming combinators, and `panic` for a Rust panic (`unimplemented!`,
`todo!`).  The unbounded recursion of the variant decoder is embedded with an
explicit fuel argument; `fuel` marks fuel exhaustion, an artifact of the
embedding which is proved unreachable whenever the fuel exceeds the input
length.
-/

namespace SepData

/-- Outcome of running an embedded `nom` parser on a byte list. -/
inductive PResult (α : Type) where
  | ok (rest : List Nat) (val : α)
  | err
  | incomplete
  | panic
  | fuel
  deriving DecidableEq, Repr

/-- A parser over byte lists, as in `IResult<&[u8], T>`. -/
abbrev Parser (α : Type) := List Nat → PResult α

/-- Transport a non-success outcome into a parser result of another type
(the `?` operator / error propagation of the source). -/
def castErr {α β : Type} : PResult α → PResult β
  | .ok _ _ => .err
  | .err => .err
  | .incomplete => .incomplete
  | .panic => .panic
  | .fuel => .fuel

/-- Sequencing of parsers: `let (i, v) = p(i)?; f v` in the source. -/
def pbind {α β : Type} (p : Parser α) (f : α → Parser β) : Parser β := fun i =>
  match p i with
  | .ok r v => f v r
  | e => castErr e

/-- `nom::combinator::map`. -/
def pmap {α β : Type} (p : Parser α) (f : α → β) : Parser β := fun i =>
  match p i with
  | .ok r v => .ok r (f v)
  | e => castErr e

/-- `nom::combinator::map_res`, with the fallible map modelled as `Option`. -/
def pmapRes {α β : Type} (p : Parser α) (f : α → Option β) : Parser β := fun i =>
  match p i with
  | .ok r v =>
    match f v with
    | some w => .ok r w
    | none => .err
  | e => castErr e

/-- `nom::bytes::streaming::take`: returns `Incomplete` when fewer than `n`
bytes remain. -/
def ptake (n : Nat) : Parser (List Nat) := fun i =>
  if n ≤ i.length then .ok (i.drop n) (i.take n) else .incomplete

/-- `nom::bytes::streaming::tag`: `Incomplete` when the input is a proper
prefix of the tag, `Error` on a mismatch. -/
def ptag (t : List Nat) : Parser (List Nat) := fun i =>
  if t.length ≤ i.length then
    if i.take t.length = t then .ok (i.drop t.length) t else .err
  else
    if i = t.take i.length then .incomplete else .err

/-- `nom::combinator::all_consuming`: fails unless the inner parser consumed
the whole input. -/
def allConsuming {α : Type} (p : Parser α) : Parser α := fun i =>
  match p i with
  | .ok [] v => .ok [] v
  | .ok (_ :: _) _ => .err
  | e => e

/-- Running a parser over an already-extracted sub-slice, keeping the outer
leftover (the `let (_, x) = inner(data)?` pattern of the source). -/
def onSlice {α : Type} (p : Parser α) (data : List Nat) : Parser α := fun i =>
  match p data with
  | .ok _ v => .ok i v
  | e => castErr e

/-- `nom::multi::count`: run a parser a fixed number of times. -/
def pcount {α : Type} (p : Parser α) : Nat → Parser (List α)
  | 0 => fun i => .ok i []
  | n + 1 => fun i =>
    match p i with
    | .ok r v =>
      match pcount p n r with
      | .ok r2 vs => .ok r2 (v :: vs)
      | e => castErr e
    | e => castErr e

/-- Big-endian unsigned integer over `n` bytes
(`nom::number::complete::be_*`: insufficient input is an `Error`). -/
def beNat (n : Nat) : Parser Nat := fun i =>
  if n ≤ i.length then
    .ok (i.drop n) ((i.take n).foldl (fun acc b => 256 * acc + b) 0)
  else .err

def parse_u8 : Parser Nat := beNat 1

def parse_u16 : Parser Nat := beNat 2

def parse_u32 : Parser Nat := beNat 4

/-- `be_i32`: the 4-byte big-endian pattern read as a two's-complement `i32`. -/
def parse_s32 : Parser Int :=
  pmap (beNat 4) fun n => if n < 2 ^ 31 then (n : Int) else (n : Int) - 2 ^ 32

def parse_u64 : Parser Nat := beNat 8

/-- `be_f32`, value kept as its 4-byte bit pattern. -/
def parse_f32 : Parser Nat := beNat 4

/-- `be_f64`, value kept as its 8-byte bit pattern. -/
def parse_f64 : Parser Nat := beNat 8

/-- Wire data types (src/src/se_types/types.rs), floats as bit patterns. -/
structure Point2D where
  x : Nat
  y : Nat
  deriving DecidableEq, Repr

structure Vect2D where
  x : Nat
  y : Nat
  deriving DecidableEq, Repr

structure Point3D where
  x : Nat
  y : Nat
  z : Nat
  deriving DecidableEq, Repr

structure Vect3D where
  x : Nat
  y : Nat
  z : Nat
  deriving DecidableEq, Repr

structure Quaternion where
  w : Nat
  x : Nat
  y : Nat
  z : Nat
  deriving DecidableEq, Repr

/-- Rust `String` modelled as its UTF-8 byte list. -/
abbrev SEString := List Nat

structure WorldIntersection where
  world_point : Point3D
  object_point : Point3D
  object_name : SEString
  deriving DecidableEq, Repr

structure UserMarker where
  error : Int
  time_stamp : Nat
  camera_clock : Nat
  camera_idx : Nat
  data : Nat
  deriving DecidableEq, Repr

/-- The 22 wire type tags (`SETypeId` in src/src/se_types/types.rs). -/
inductive SETypeId where
  | U8
  | U16
  | U32
  | S32
  | U64
  | F64
  | Point2D
  | Vect2D
  | Point3D
  | Vect3D
  | String
  | Vector
  | Struct
  | WorldIntersection
  | WorldIntersections
  | PacketHeader
  | SubPacketHeader
  | F32
  | Matrix3X3
  | Matrix2x2
  | Quaternion
  | UserMarker
  deriving DecidableEq, Repr

/-- `SETypeId::try_from(u16)` (src/src/se_types/types.rs): tags `0x00`–`0x15`. -/
def toSETypeId : Nat → Option SETypeId
  | 0x00 => some .U8
  | 0x01 => some .U16
  | 0x02 => some .U32
  | 0x03 => some .S32
  | 0x04 => some .U64
  | 0x05 => some .F64
  | 0x06 => some .Point2D
  | 0x07 => some .Vect2D
  | 0x08 => some .Point3D
  | 0x09 => some .Vect3D
  | 0x0A => some .String
  | 0x0B => some .Vector
  | 0x0C => some .Struct
  | 0x0D => some .WorldIntersection
  | 0x0E => some .WorldIntersections
  | 0x0F => some .PacketHeader
  | 0x10 => some .SubPacketHeader
  | 0x11 => some .F32
  | 0x12 => some .Matrix3X3
  | 0x13 => some .Matrix2x2
  | 0x14 => some .Quaternion
  | 0x15 => some .UserMarker
  | _ => none

/-- The tagged-union value tree (`SEVariant` in src/src/se_types/types.rs).
Struct items are (key, value) pairs, mirroring the tuple struct
`SEStructItem(String, SEVariant)`. -/
inductive SEVariant where
  | U8 (v : Nat)
  | U16 (v : Nat)
  | U32 (v : Nat)
  | S32 (v : Int)
  | U64 (v : Nat)
  | F64 (v : Nat)
  | Point2D (v : Point2D)
  | Vect2D (v : Vect2D)
  | Point3D (v : Point3D)
  | Vect3D (v : Vect3D)
  | String (v : SEString)
  | Vector (v : List SEVariant)
  | Struct (v : List (SEString × SEVariant))
  | WorldIntersection (v : Option WorldIntersection)
  | WorldIntersections (v : List WorldIntersection)
  | F32 (v : Nat)
  | Quaternion (v : Quaternion)
  | UserMarker (v : Option UserMarker)

abbrev SEStructItem := SEString × SEVariant

abbrev SEVectorItem := SEVariant

/-- UTF-8 continuation byte check. -/
def utf8Cont (c : Nat) : Bool := decide (0x80 ≤ c ∧ c ≤ 0xBF)

/-- Strict UTF-8 validity of a byte list, as checked by `String::from_utf8`
(rejects overlong forms, surrogates, and code points above `0x10FFFF`). -/
def utf8Valid : List Nat → Bool
  | [] => true
  | b :: r =>
    if b < 0x80 then utf8Valid r
    else if b < 0xC2 then false
    else if b < 0xE0 then
      match r with
      | c1 :: r2 => utf8Cont c1 && utf8Valid r2
      | [] => false
    else if b < 0xF0 then
      match r with
      | c1 :: c2 :: r2 =>
        (if b = 0xE0 then decide (0xA0 ≤ c1 ∧ c1 ≤ 0xBF)
         else if b = 0xED then decide (0x80 ≤ c1 ∧ c1 ≤ 0x9F)
         else utf8Cont c1) && utf8Cont c2 && utf8Valid r2
      | _ => false
    else if b < 0xF5 then
      match r with
      | c1 :: c2 :: c3 :: r2 =>
        (if b = 0xF0 then decide (0x90 ≤ c1 ∧ c1 ≤ 0xBF)
         else if b = 0xF4 then decide (0x80 ≤ c1 ∧ c1 ≤ 0x8F)
         else utf8Cont c1) && utf8Cont c2 && utf8Cont c3 && utf8Valid r2
      | _ => false
    else false

/-- `parse_string` (src/src/parser/mod.rs): u16 length prefix, then that many
bytes which must be valid UTF-8. -/
def parse_string : Parser SEString :=
  pbind parse_u16 fun length =>
    pmapRes (pcount parse_u8 length)
      fun chars => if utf8Valid chars then some chars else none

def parse_point_2d : Parser Point2D :=
  pbind parse_f64 fun x => pmap parse_f64 fun y => Point2D.mk x y

def parse_vect_2d : Parser Vect2D :=
  pbind parse_f64 fun x => pmap parse_f64 fun y => Vect2D.mk x y

def parse_point_3d : Parser Point3D :=
  pbind parse_f64 fun x => pbind parse_f64 fun y =>
    pmap parse_f64 fun z => Point3D.mk x y z

def parse_vect_3d : Parser Vect3D :=
  pbind parse_f64 fun x => pbind parse_f64 fun y =>
    pmap parse_f64 fun z => Vect3D.mk x y z

def parse_quaternion : Parser Quaternion :=
  pbind parse_f64 fun w => pbind parse_f64 fun x => pbind parse_f64 fun y =>
    pmap parse_f64 fun z => Quaternion.mk w x y z

def parse_world_intersection_item : Parser WorldIntersection :=
  pbind parse_point_3d fun world_point =>
    pbind parse_point_3d fun object_point =>
      pmap parse_string fun object_name =>
        WorldIntersection.mk world_point object_point object_name

/-- `parse_world_intersection` (src/src/parser/mod.rs): u16 presence flag;
`0` is absent, `1` is present, and any other flag hits `unimplemented!`,
i.e. a panic. -/
def parse_world_intersection : Parser (Option WorldIntersection) :=
  pbind parse_u16 fun exists_flag =>
    match exists_flag with
    | 0 => fun i => .ok i none
    | 1 => pmap parse_world_intersection_item some
    | _ => fun _ => .panic

def parse_world_intersections : Parser (List WorldIntersection) :=
  pbind parse_u16 fun num_intersections =>
    pcount parse_world_intersection_item num_intersections

def parse_user_marker_item : Parser UserMarker :=
  pbind parse_s32 fun error =>
    pbind parse_u64 fun time_stamp =>
      pbind parse_u64 fun camera_clock =>
        pbind parse_u8 fun camera_idx =>
          pmap parse_u64 fun data =>
            UserMarker.mk error time_stamp camera_clock camera_idx data

/-- `parse_user_marker` (src/src/parser/mod.rs): u16 presence flag; `0` is
absent, `1` is present, any other flag hits `unimplemented!`, i.e. a panic. -/
def parse_user_marker : Parser (Option UserMarker) :=
  pbind parse_u16 fun exists_flag =>
    match exists_flag with
    | 0 => fun i => .ok i none
    | 1 => pmap parse_user_marker_item some
    | _ => fun _ => .panic

/-- `parse_struct_item`, parameterised by the variant parser for the value. -/
def parse_struct_itemP (pv : Parser SEVariant) : Parser SEStructItem :=
  pbind parse_string fun key => pmap pv fun value => (key, value)

/-- `parse_vector`, parameterised by the element parser. -/
def parse_vectorP (pv : Parser SEVariant) : Parser (List SEVariant) :=
  pbind parse_u16 fun length => pcount pv length

/-- `parse_struct`, parameterised by the variant parser. -/
def parse_structP (pv : Parser SEVariant) : Parser (List SEStructItem) :=
  pbind parse_u16 fun length => pcount (parse_struct_itemP pv) length

/-- Fuelled embedding of the recursive `parse_variant`
(src/src/parser/mod.rs): a u16 type tag selects the decoder; the reserved
tags `PacketHeader`/`SubPacketHeader` hit `unimplemented!` and
`Matrix3X3`/`Matrix2x2` hit `todo!`, i.e. panics.  The fuel only bounds the
recursion depth of the embedding; it is proved irrelevant once it exceeds the
input length. -/
def parse_variantF : Nat → Parser SEVariant
  | 0 => fun _ => .fuel
  | f + 1 => fun i =>
    match pmapRes parse_u16 toSETypeId i with
    | .ok r type_id =>
      (match type_id with
       | .U8 => pmap parse_u8 SEVariant.U8
       | .U16 => pmap parse_u16 SEVariant.U16
       | .U32 => pmap parse_u32 SEVariant.U32
       | .S32 => pmap parse_s32 SEVariant.S32
       | .U64 => pmap parse_u64 SEVariant.U64
       | .F64 => pmap parse_f64 SEVariant.F64
       | .Point2D => pmap parse_point_2d SEVariant.Point2D
       | .Vect2D => pmap parse_vect_2d SEVariant.Vect2D
       | .Point3D => pmap parse_point_3d SEVariant.Point3D
       | .Vect3D => pmap parse_vect_3d SEVariant.Vect3D
       | .String => pmap parse_string SEVariant.String
       | .Vector => pmap (parse_vectorP (parse_variantF f)) SEVariant.Vector
       | .Struct => pmap (parse_structP (parse_variantF f)) SEVariant.Struct
       | .WorldIntersection => pmap parse_world_intersection SEVariant.WorldIntersection
       | .WorldIntersections => pmap parse_world_intersections SEVariant.WorldIntersections
       | .PacketHeader => fun _ => .panic
       | .SubPacketHeader => fun _ => .panic
       | .F32 => pmap parse_f32 SEVariant.F32
       | .Matrix3X3 => fun _ => .panic
       | .Matrix2x2 => fun _ => .panic
       | .Quaternion => pmap parse_quaternion SEVariant.Quaternion
       | .UserMarker => pmap parse_user_marker SEVariant.UserMarker) r
    | e => castErr e

/-- `parse_variant`: the fuel `i.length + 1` always suffices (see the
termination theorem), making this the exact semantics of the source. -/
def parse_variant : Parser SEVariant := fun i => parse_variantF (i.length + 1) i

/-- `parse_vector` with the same canonical fuel. -/
def parse_vector : Parser (List SEVariant) := fun i =>
  parse_vectorP (parse_variantF (i.length + 1)) i

/-- `parse_struct` with the same canonical fuel. -/
def parse_struct : Parser (List SEStructItem) := fun i =>
  parse_structP (parse_variantF (i.length + 1)) i

/-- Field identifiers of `SEOutputData` sub-packets, enumerated from the arms of the
exhaustive `match` in `parse_sub_packet_data` (src/src/parser/mod.rs). -/
inductive SEOutputDataId where
  | SEFrameNumber
  | SEEstimatedDelay
  | SETimeStamp
  | SEUserTimeStamp
  | SEFrameRate
  | SECameraPositions
  | SECameraRotations
  | SEUserDefinedData
  | SERealTimeClock
  | SEKeyboardState
  | SEASCIIKeyboardState
  | SEUserMarker
  | SECameraClocks
  | SEHeadPosition
  | SEHeadPositionQ
  | SEHeadRotationRodrigues
  | SEHeadRotationQuaternion
  | SEHeadLeftEarDirection
  | SEHeadUpDirection
  | SEHeadNoseDirection
  | SEHeadHeading
  | SEHeadPitch
  | SEHeadRoll
  | SEHeadRotationQ
  | SEGazeOrigin
  | SELeftGazeOrigin
  | SERightGazeOrigin
  | SEEyePosition
  | SEGazeDirection
  | SEGazeDirectionQ
  | SELeftEyePosition
  | SELeftGazeDirection
  | SELeftGazeDirectionQ
  | SERightEyePosition
  | SERightGazeDirection
  | SERightGazeDirectionQ
  | SEGazeHeading
  | SEGazePitch
  | SELeftGazeHeading
  | SELeftGazePitch
  | SERightGazeHeading
  | SERightGazePitch
  | SEFilteredGazeDirection
  | SEFilteredGazeDirectionQ
  | SEFilteredLeftGazeDirection
  | SEFilteredLeftGazeDirectionQ
  | SEFilteredRightGazeDirection
  | SEFilteredRightGazeDirectionQ
  | SEFilteredGazeHeading
  | SEFilteredGazePitch
  | SEFilteredLeftGazeHeading
  | SEFilteredLeftGazePitch
  | SEFilteredRightGazeHeading
  | SEFilteredRightGazePitch
  | SESaccade
  | SEFixation
  | SEBlink
  | SETrackingState
  | SEEyeglassesStatus
  | SEReflexReductionStateDEPRECATED
  | SELeftBlinkClosingMidTime
  | SELeftBlinkOpeningMidTime
  | SELeftBlinkClosingAmplitude
  | SELeftBlinkOpeningAmplitude
  | SELeftBlinkClosingSpeed
  | SELeftBlinkOpeningSpeed
  | SERightBlinkClosingMidTime
  | SERightBlinkOpeningMidTime
  | SERightBlinkClosingAmplitude
  | SERightBlinkOpeningAmplitude
  | SERightBlinkClosingSpeed
  | SERightBlinkOpeningSpeed
  | SEClosestWorldIntersection
  | SEFilteredClosestWorldIntersection
  | SEAllWorldIntersections
  | SEFilteredAllWorldIntersections
  | SEZoneId
  | SEEstimatedClosestWorldIntersection
  | SEEstimatedAllWorldIntersections
  | SEHeadClosestWorldIntersection
  | SEHeadAllWorldIntersections
  | SECalibrationGazeIntersection
  | SETaggedGazeIntersection
  | SELeftClosestWorldIntersection
  | SELeftAllWorldIntersections
  | SERightClosestWorldIntersection
  | SERightAllWorldIntersections
  | SEFilteredLeftClosestWorldIntersection
  | SEFilteredLeftAllWorldIntersections
  | SEFilteredRightClosestWorldIntersection
  | SEFilteredRightAllWorldIntersections
  | SEEstimatedLeftClosestWorldIntersection
  | SEEstimatedLeftAllWorldIntersections
  | SEEstimatedRightClosestWorldIntersection
  | SEEstimatedRightAllWorldIntersections
  | SEFilteredEstimatedClosestWorldIntersection
  | SEFilteredEstimatedAllWorldIntersections
  | SEFilteredEstimatedLeftClosestWorldIntersection
  | SEFilteredEstimatedLeftAllWorldIntersections
  | SEFilteredEstimatedRightClosestWorldIntersection
  | SEFilteredEstimatedRightAllWorldIntersections
  | SEEyelidOpening
  | SEEyelidOpeningQ
  | SELeftEyelidOpening
  | SELeftEyelidOpeningQ
  | SERightEyelidOpening
  | SERightEyelidOpeningQ
  | SELeftLowerEyelidExtremePoint
  | SELeftUpperEyelidExtremePoint
  | SERightLowerEyelidExtremePoint
  | SERightUpperEyelidExtremePoint
  | SELeftEyelidState
  | SERightEyelidState
  | SEPupilDiameter
  | SEPupilDiameterQ
  | SELeftPupilDiameter
  | SELeftPupilDiameterQ
  | SERightPupilDiameter
  | SERightPupilDiameterQ
  | SEFilteredPupilDiameter
  | SEFilteredPupilDiameterQ
  | SEFilteredLeftPupilDiameter
  | SEFilteredLeftPupilDiameterQ
  | SEFilteredRightPupilDiameter
  | SEFilteredRightPupilDiameterQ
  | SEGPSPosition
  | SEGPSGroundSpeed
  | SEGPSCourse
  | SEGPSTime
  | SEEstimatedGazeOrigin
  | SEEstimatedLeftGazeOrigin
  | SEEstimatedRightGazeOrigin
  | SEEstimatedEyePosition
  | SEEstimatedGazeDirection
  | SEEstimatedGazeDirectionQ
  | SEEstimatedGazeHeading
  | SEEstimatedGazePitch
  | SEEstimatedLeftEyePosition
  | SEEstimatedLeftGazeDirection
  | SEEstimatedLeftGazeDirectionQ
  | SEEstimatedLeftGazeHeading
  | SEEstimatedLeftGazePitch
  | SEEstimatedRightEyePosition
  | SEEstimatedRightGazeDirection
  | SEEstimatedRightGazeDirectionQ
  | SEEstimatedRightGazeHeading
  | SEEstimatedRightGazePitch
  | SEFilteredEstimatedGazeDirection
  | SEFilteredEstimatedGazeDirectionQ
  | SEFilteredEstimatedGazeHeading
  | SEFilteredEstimatedGazePitch
  | SEFilteredEstimatedLeftGazeDirection
  | SEFilteredEstimatedLeftGazeDirectionQ
  | SEFilteredEstimatedLeftGazeHeading
  | SEFilteredEstimatedLeftGazePitch
  | SEFilteredEstimatedRightGazeDirection
  | SEFilteredEstimatedRightGazeDirectionQ
  | SEFilteredEstimatedRightGazeHeading
  | SEFilteredEstimatedRightGazePitch

/-- Decoded telemetry fields, one constructor per implemented arm of
`parse_sub_packet_data` (the three reserved ids construct no value: they panic). -/
inductive SEOutputData where
  | SEFrameNumber (v : Nat)
  | SEEstimatedDelay (v : Nat)
  | SETimeStamp (v : Nat)
  | SEUserTimeStamp (v : Nat)
  | SEFrameRate (v : Nat)
  | SECameraPositions (v : List SEVariant)
  | SECameraRotations (v : List SEVariant)
  | SEUserDefinedData (v : Nat)
  | SERealTimeClock (v : Nat)
  | SEKeyboardState (v : SEString)
  | SEASCIIKeyboardState (v : Nat)
  | SEUserMarker (v : Option UserMarker)
  | SECameraClocks (v : List SEVariant)
  | SEHeadPosition (v : Point3D)
  | SEHeadPositionQ (v : Nat)
  | SEHeadRotationRodrigues (v : Vect3D)
  | SEHeadRotationQuaternion (v : Quaternion)
  | SEHeadLeftEarDirection (v : Vect3D)
  | SEHeadUpDirection (v : Vect3D)
  | SEHeadNoseDirection (v : Vect3D)
  | SEHeadHeading (v : Nat)
  | SEHeadPitch (v : Nat)
  | SEHeadRoll (v : Nat)
  | SEHeadRotationQ (v : Nat)
  | SEGazeOrigin (v : Point3D)
  | SELeftGazeOrigin (v : Point3D)
  | SERightGazeOrigin (v : Point3D)
  | SEEyePosition (v : Point3D)
  | SEGazeDirection (v : Vect3D)
  | SEGazeDirectionQ (v : Nat)
  | SELeftEyePosition (v : Point3D)
  | SELeftGazeDirection (v : Vect3D)
  | SELeftGazeDirectionQ (v : Nat)
  | SERightEyePosition (v : Point3D)
  | SERightGazeDirection (v : Vect3D)
  | SERightGazeDirectionQ (v : Nat)
  | SEGazeHeading (v : Nat)
  | SEGazePitch (v : Nat)
  | SELeftGazeHeading (v : Nat)
  | SELeftGazePitch (v : Nat)
  | SERightGazeHeading (v : Nat)
  | SERightGazePitch (v : Nat)
  | SEFilteredGazeDirection (v : Vect3D)
  | SEFilteredGazeDirectionQ (v : Nat)
  | SEFilteredLeftGazeDirection (v : Vect3D)
  | SEFilteredLeftGazeDirectionQ (v : Nat)
  | SEFilteredRightGazeDirection (v : Vect3D)
  | SEFilteredRightGazeDirectionQ (v : Nat)
  | SEFilteredGazeHeading (v : Nat)
  | SEFilteredGazePitch (v : Nat)
  | SEFilteredLeftGazeHeading (v : Nat)
  | SEFilteredLeftGazePitch (v : Nat)
  | SEFilteredRightGazeHeading (v : Nat)
  | SEFilteredRightGazePitch (v : Nat)
  | SESaccade (v : Nat)
  | SEFixation (v : Nat)
  | SEBlink (v : Nat)
  | SELeftBlinkClosingMidTime (v : Nat)
  | SELeftBlinkOpeningMidTime (v : Nat)
  | SELeftBlinkClosingAmplitude (v : Nat)
  | SELeftBlinkOpeningAmplitude (v : Nat)
  | SELeftBlinkClosingSpeed (v : Nat)
  | SELeftBlinkOpeningSpeed (v : Nat)
  | SERightBlinkClosingMidTime (v : Nat)
  | SERightBlinkOpeningMidTime (v : Nat)
  | SERightBlinkClosingAmplitude (v : Nat)
  | SERightBlinkOpeningAmplitude (v : Nat)
  | SERightBlinkClosingSpeed (v : Nat)
  | SERightBlinkOpeningSpeed (v : Nat)
  | SEClosestWorldIntersection (v : Option WorldIntersection)
  | SEFilteredClosestWorldIntersection (v : Option WorldIntersection)
  | SEAllWorldIntersections (v : List WorldIntersection)
  | SEFilteredAllWorldIntersections (v : List WorldIntersection)
  | SEZoneId (v : Nat)
  | SEEstimatedClosestWorldIntersection (v : Option WorldIntersection)
  | SEEstimatedAllWorldIntersections (v : List WorldIntersection)
  | SEHeadClosestWorldIntersection (v : Option WorldIntersection)
  | SEHeadAllWorldIntersections (v : List WorldIntersection)
  | SECalibrationGazeIntersection (v : Option WorldIntersection)
  | SETaggedGazeIntersection (v : Option WorldIntersection)
  | SELeftClosestWorldIntersection (v : Option WorldIntersection)
  | SELeftAllWorldIntersections (v : List WorldIntersection)
  | SERightClosestWorldIntersection (v : Option WorldIntersection)
  | SERightAllWorldIntersections (v : List WorldIntersection)
  | SEFilteredLeftClosestWorldIntersection (v : Option WorldIntersection)
  | SEFilteredLeftAllWorldIntersections (v : List WorldIntersection)
  | SEFilteredRightClosestWorldIntersection (v : Option WorldIntersection)
  | SEFilteredRightAllWorldIntersections (v : List WorldIntersection)
  | SEEstimatedLeftClosestWorldIntersection (v : Option WorldIntersection)
  | SEEstimatedLeftAllWorldIntersections (v : List WorldIntersection)
  | SEEstimatedRightClosestWorldIntersection (v : Option WorldIntersection)
  | SEEstimatedRightAllWorldIntersections (v : List WorldIntersection)
  | SEFilteredEstimatedClosestWorldIntersection (v : Option WorldIntersection)
  | SEFilteredEstimatedAllWorldIntersections (v : List WorldIntersection)
  | SEFilteredEstimatedLeftClosestWorldIntersection (v : Option WorldIntersection)
  | SEFilteredEstimatedLeftAllWorldIntersections (v : List WorldIntersection)
  | SEFilteredEstimatedRightClosestWorldIntersection (v : Option WorldIntersection)
  | SEFilteredEstimatedRightAllWorldIntersections (v : List WorldIntersection)
  | SEEyelidOpening (v : Nat)
  | SEEyelidOpeningQ (v : Nat)
  | SELeftEyelidOpening (v : Nat)
  | SELeftEyelidOpeningQ (v : Nat)
  | SERightEyelidOpening (v : Nat)
  | SERightEyelidOpeningQ (v : Nat)
  | SELeftLowerEyelidExtremePoint (v : Point3D)
  | SELeftUpperEyelidExtremePoint (v : Point3D)
  | SERightLowerEyelidExtremePoint (v : Point3D)
  | SERightUpperEyelidExtremePoint (v : Point3D)
  | SELeftEyelidState (v : Nat)
  | SERightEyelidState (v : Nat)
  | SEPupilDiameter (v : Nat)
  | SEPupilDiameterQ (v : Nat)
  | SELeftPupilDiameter (v : Nat)
  | SELeftPupilDiameterQ (v : Nat)
  | SERightPupilDiameter (v : Nat)
  | SERightPupilDiameterQ (v : Nat)
  | SEFilteredPupilDiameter (v : Nat)
  | SEFilteredPupilDiameterQ (v : Nat)
  | SEFilteredLeftPupilDiameter (v : Nat)
  | SEFilteredLeftPupilDiameterQ (v : Nat)
  | SEFilteredRightPupilDiameter (v : Nat)
  | SEFilteredRightPupilDiameterQ (v : Nat)
  | SEGPSPosition (v : Point2D)
  | SEGPSGroundSpeed (v : Nat)
  | SEGPSCourse (v : Nat)
  | SEGPSTime (v : Nat)
  | SEEstimatedGazeOrigin (v : Point3D)
  | SEEstimatedLeftGazeOrigin (v : Point3D)
  | SEEstimatedRightGazeOrigin (v : Point3D)
  | SEEstimatedEyePosition (v : Point3D)
  | SEEstimatedGazeDirection (v : Vect3D)
  | SEEstimatedGazeDirectionQ (v : Nat)
  | SEEstimatedGazeHeading (v : Nat)
  | SEEstimatedGazePitch (v : Nat)
  | SEEstimatedLeftEyePosition (v : Point3D)
  | SEEstimatedLeftGazeDirection (v : Vect3D)
  | SEEstimatedLeftGazeDirectionQ (v : Nat)
  | SEEstimatedLeftGazeHeading (v : Nat)
  | SEEstimatedLeftGazePitch (v : Nat)
  | SEEstimatedRightEyePosition (v : Point3D)
  | SEEstimatedRightGazeDirection (v : Vect3D)
  | SEEstimatedRightGazeDirectionQ (v : Nat)
  | SEEstimatedRightGazeHeading (v : Nat)
  | SEEstimatedRightGazePitch (v : Nat)
  | SEFilteredEstimatedGazeDirection (v : Vect3D)
  | SEFilteredEstimatedGazeDirectionQ (v : Nat)
  | SEFilteredEstimatedGazeHeading (v : Nat)
  | SEFilteredEstimatedGazePitch (v : Nat)
  | SEFilteredEstimatedLeftGazeDirection (v : Vect3D)
  | SEFilteredEstimatedLeftGazeDirectionQ (v : Nat)
  | SEFilteredEstimatedLeftGazeHeading (v : Nat)
  | SEFilteredEstimatedLeftGazePitch (v : Nat)
  | SEFilteredEstimatedRightGazeDirection (v : Vect3D)
  | SEFilteredEstimatedRightGazeDirectionQ (v : Nat)
  | SEFilteredEstimatedRightGazeHeading (v : Nat)
  | SEFilteredEstimatedRightGazePitch (v : Nat)

/-- Embedding of `parse_sub_packet_data` (src/src/parser/mod.rs): the fixed field-id
dispatch table. The three reserved ids hit `unimplemented!` in the source, i.e. panic. -/
def parse_sub_packet_data (data_id : SEOutputDataId) : Parser SEOutputData := fun i =>
  match data_id with
  | .SEFrameNumber => pmap parse_u32 SEOutputData.SEFrameNumber i
  | .SEEstimatedDelay => pmap parse_u32 SEOutputData.SEEstimatedDelay i
  | .SETimeStamp => pmap parse_u64 SEOutputData.SETimeStamp i
  | .SEUserTimeStamp => pmap parse_u64 SEOutputData.SEUserTimeStamp i
  | .SEFrameRate => pmap parse_f64 SEOutputData.SEFrameRate i
  | .SECameraPositions => pmap parse_vector SEOutputData.SECameraPositions i
  | .SECameraRotations => pmap parse_vector SEOutputData.SECameraRotations i
  | .SEUserDefinedData => pmap parse_u64 SEOutputData.SEUserDefinedData i
  | .SERealTimeClock => pmap parse_u64 SEOutputData.SERealTimeClock i
  | .SEKeyboardState => pmap parse_string SEOutputData.SEKeyboardState i
  | .SEASCIIKeyboardState => pmap parse_u16 SEOutputData.SEASCIIKeyboardState i
  | .SEUserMarker => pmap parse_user_marker SEOutputData.SEUserMarker i
  | .SECameraClocks => pmap parse_vector SEOutputData.SECameraClocks i
  | .SEHeadPosition => pmap parse_point_3d SEOutputData.SEHeadPosition i
  | .SEHeadPositionQ => pmap parse_f64 SEOutputData.SEHeadPositionQ i
  | .SEHeadRotationRodrigues => pmap parse_vect_3d SEOutputData.SEHeadRotationRodrigues i
  | .SEHeadRotationQuaternion => pmap parse_quaternion SEOutputData.SEHeadRotationQuaternion i
  | .SEHeadLeftEarDirection => pmap parse_vect_3d SEOutputData.SEHeadLeftEarDirection i
  | .SEHeadUpDirection => pmap parse_vect_3d SEOutputData.SEHeadUpDirection i
  | .SEHeadNoseDirection => pmap parse_vect_3d SEOutputData.SEHeadNoseDirection i
  | .SEHeadHeading => pmap parse_f64 SEOutputData.SEHeadHeading i
  | .SEHeadPitch => pmap parse_f64 SEOutputData.SEHeadPitch i
  | .SEHeadRoll => pmap parse_f64 SEOutputData.SEHeadRoll i
  | .SEHeadRotationQ => pmap parse_f64 SEOutputData.SEHeadRotationQ i
  | .SEGazeOrigin => pmap parse_point_3d SEOutputData.SEGazeOrigin i
  | .SELeftGazeOrigin => pmap parse_point_3d SEOutputData.SELeftGazeOrigin i
  | .SERightGazeOrigin => pmap parse_point_3d SEOutputData.SERightGazeOrigin i
  | .SEEyePosition => pmap parse_point_3d SEOutputData.SEEyePosition i
  | .SEGazeDirection => pmap parse_vect_3d SEOutputData.SEGazeDirection i
  | .SEGazeDirectionQ => pmap parse_f64 SEOutputData.SEGazeDirectionQ i
  | .SELeftEyePosition => pmap parse_point_3d SEOutputData.SELeftEyePosition i
  | .SELeftGazeDirection => pmap parse_vect_3d SEOutputData.SELeftGazeDirection i
  | .SELeftGazeDirectionQ => pmap parse_f64 SEOutputData.SELeftGazeDirectionQ i
  | .SERightEyePosition => pmap parse_point_3d SEOutputData.SERightEyePosition i
  | .SERightGazeDirection => pmap parse_vect_3d SEOutputData.SERightGazeDirection i
  | .SERightGazeDirectionQ => pmap parse_f64 SEOutputData.SERightGazeDirectionQ i
  | .SEGazeHeading => pmap parse_f64 SEOutputData.SEGazeHeading i
  | .SEGazePitch => pmap parse_f64 SEOutputData.SEGazePitch i
  | .SELeftGazeHeading => pmap parse_f64 SEOutputData.SELeftGazeHeading i
  | .SELeftGazePitch => pmap parse_f64 SEOutputData.SELeftGazePitch i
  | .SERightGazeHeading => pmap parse_f64 SEOutputData.SERightGazeHeading i
  | .SERightGazePitch => pmap parse_f64 SEOutputData.SERightGazePitch i
  | .SEFilteredGazeDirection => pmap parse_vect_3d SEOutputData.SEFilteredGazeDirection i
  | .SEFilteredGazeDirectionQ => pmap parse_f64 SEOutputData.SEFilteredGazeDirectionQ i
  | .SEFilteredLeftGazeDirection => pmap parse_vect_3d SEOutputData.SEFilteredLeftGazeDirection i
  | .SEFilteredLeftGazeDirectionQ => pmap parse_f64 SEOutputData.SEFilteredLeftGazeDirectionQ i
  | .SEFilteredRightGazeDirection => pmap parse_vect_3d SEOutputData.SEFilteredRightGazeDirection i
  | .SEFilteredRightGazeDirectionQ => pmap parse_f64 SEOutputData.SEFilteredRightGazeDirectionQ i
  | .SEFilteredGazeHeading => pmap parse_f64 SEOutputData.SEFilteredGazeHeading i
  | .SEFilteredGazePitch => pmap parse_f64 SEOutputData.SEFilteredGazePitch i
  | .SEFilteredLeftGazeHeading => pmap parse_f64 SEOutputData.SEFilteredLeftGazeHeading i
  | .SEFilteredLeftGazePitch => pmap parse_f64 SEOutputData.SEFilteredLeftGazePitch i
  | .SEFilteredRightGazeHeading => pmap parse_f64 SEOutputData.SEFilteredRightGazeHeading i
  | .SEFilteredRightGazePitch => pmap parse_f64 SEOutputData.SEFilteredRightGazePitch i
  | .SESaccade => pmap parse_u32 SEOutputData.SESaccade i
  | .SEFixation => pmap parse_u32 SEOutputData.SEFixation i
  | .SEBlink => pmap parse_u32 SEOutputData.SEBlink i
  | .SETrackingState => PResult.panic
  | .SEEyeglassesStatus => PResult.panic
  | .SEReflexReductionStateDEPRECATED => PResult.panic
  | .SELeftBlinkClosingMidTime => pmap parse_u64 SEOutputData.SELeftBlinkClosingMidTime i
  | .SELeftBlinkOpeningMidTime => pmap parse_u64 SEOutputData.SELeftBlinkOpeningMidTime i
  | .SELeftBlinkClosingAmplitude => pmap parse_f64 SEOutputData.SELeftBlinkClosingAmplitude i
  | .SELeftBlinkOpeningAmplitude => pmap parse_f64 SEOutputData.SELeftBlinkOpeningAmplitude i
  | .SELeftBlinkClosingSpeed => pmap parse_f64 SEOutputData.SELeftBlinkClosingSpeed i
  | .SELeftBlinkOpeningSpeed => pmap parse_f64 SEOutputData.SELeftBlinkOpeningSpeed i
  | .SERightBlinkClosingMidTime => pmap parse_u64 SEOutputData.SERightBlinkClosingMidTime i
  | .SERightBlinkOpeningMidTime => pmap parse_u64 SEOutputData.SERightBlinkOpeningMidTime i
  | .SERightBlinkClosingAmplitude => pmap parse_f64 SEOutputData.SERightBlinkClosingAmplitude i
  | .SERightBlinkOpeningAmplitude => pmap parse_f64 SEOutputData.SERightBlinkOpeningAmplitude i
  | .SERightBlinkClosingSpeed => pmap parse_f64 SEOutputData.SERightBlinkClosingSpeed i
  | .SERightBlinkOpeningSpeed => pmap parse_f64 SEOutputData.SERightBlinkOpeningSpeed i
  | .SEClosestWorldIntersection => pmap parse_world_intersection SEOutputData.SEClosestWorldIntersection i
  | .SEFilteredClosestWorldIntersection => pmap parse_world_intersection SEOutputData.SEFilteredClosestWorldIntersection i
  | .SEAllWorldIntersections => pmap parse_world_intersections SEOutputData.SEAllWorldIntersections i
  | .SEFilteredAllWorldIntersections => pmap parse_world_intersections SEOutputData.SEFilteredAllWorldIntersections i
  | .SEZoneId => pmap parse_u16 SEOutputData.SEZoneId i
  | .SEEstimatedClosestWorldIntersection => pmap parse_world_intersection SEOutputData.SEEstimatedClosestWorldIntersection i
  | .SEEstimatedAllWorldIntersections => pmap parse_world_intersections SEOutputData.SEEstimatedAllWorldIntersections i
  | .SEHeadClosestWorldIntersection => pmap parse_world_intersection SEOutputData.SEHeadClosestWorldIntersection i
  | .SEHeadAllWorldIntersections => pmap parse_world_intersections SEOutputData.SEHeadAllWorldIntersections i
  | .SECalibrationGazeIntersection => pmap parse_world_intersection SEOutputData.SECalibrationGazeIntersection i
  | .SETaggedGazeIntersection => pmap parse_world_intersection SEOutputData.SETaggedGazeIntersection i
  | .SELeftClosestWorldIntersection => pmap parse_world_intersection SEOutputData.SELeftClosestWorldIntersection i
  | .SELeftAllWorldIntersections => pmap parse_world_intersections SEOutputData.SELeftAllWorldIntersections i
  | .SERightClosestWorldIntersection => pmap parse_world_intersection SEOutputData.SERightClosestWorldIntersection i
  | .SERightAllWorldIntersections => pmap parse_world_intersections SEOutputData.SERightAllWorldIntersections i
  | .SEFilteredLeftClosestWorldIntersection => pmap parse_world_intersection SEOutputData.SEFilteredLeftClosestWorldIntersection i
  | .SEFilteredLeftAllWorldIntersections => pmap parse_world_intersections SEOutputData.SEFilteredLeftAllWorldIntersections i
  | .SEFilteredRightClosestWorldIntersection => pmap parse_world_intersection SEOutputData.SEFilteredRightClosestWorldIntersection i
  | .SEFilteredRightAllWorldIntersections => pmap parse_world_intersections SEOutputData.SEFilteredRightAllWorldIntersections i
  | .SEEstimatedLeftClosestWorldIntersection => pmap parse_world_intersection SEOutputData.SEEstimatedLeftClosestWorldIntersection i
  | .SEEstimatedLeftAllWorldIntersections => pmap parse_world_intersections SEOutputData.SEEstimatedLeftAllWorldIntersections i
  | .SEEstimatedRightClosestWorldIntersection => pmap parse_world_intersection SEOutputData.SEEstimatedRightClosestWorldIntersection i
  | .SEEstimatedRightAllWorldIntersections => pmap parse_world_intersections SEOutputData.SEEstimatedRightAllWorldIntersections i
  | .SEFilteredEstimatedClosestWorldIntersection => pmap parse_world_intersection SEOutputData.SEFilteredEstimatedClosestWorldIntersection i
  | .SEFilteredEstimatedAllWorldIntersections => pmap parse_world_intersections SEOutputData.SEFilteredEstimatedAllWorldIntersections i
  | .SEFilteredEstimatedLeftClosestWorldIntersection => pmap parse_world_intersection SEOutputData.SEFilteredEstimatedLeftClosestWorldIntersection i
  | .SEFilteredEstimatedLeftAllWorldIntersections => pmap parse_world_intersections SEOutputData.SEFilteredEstimatedLeftAllWorldIntersections i
  | .SEFilteredEstimatedRightClosestWorldIntersection => pmap parse_world_intersection SEOutputData.SEFilteredEstimatedRightClosestWorldIntersection i
  | .SEFilteredEstimatedRightAllWorldIntersections => pmap parse_world_intersections SEOutputData.SEFilteredEstimatedRightAllWorldIntersections i
  | .SEEyelidOpening => pmap parse_f64 SEOutputData.SEEyelidOpening i
  | .SEEyelidOpeningQ => pmap parse_f64 SEOutputData.SEEyelidOpeningQ i
  | .SELeftEyelidOpening => pmap parse_f64 SEOutputData.SELeftEyelidOpening i
  | .SELeftEyelidOpeningQ => pmap parse_f64 SEOutputData.SELeftEyelidOpeningQ i
  | .SERightEyelidOpening => pmap parse_f64 SEOutputData.SERightEyelidOpening i
  | .SERightEyelidOpeningQ => pmap parse_f64 SEOutputData.SERightEyelidOpeningQ i
  | .SELeftLowerEyelidExtremePoint => pmap parse_point_3d SEOutputData.SELeftLowerEyelidExtremePoint i
  | .SELeftUpperEyelidExtremePoint => pmap parse_point_3d SEOutputData.SELeftUpperEyelidExtremePoint i
  | .SERightLowerEyelidExtremePoint => pmap parse_point_3d SEOutputData.SERightLowerEyelidExtremePoint i
  | .SERightUpperEyelidExtremePoint => pmap parse_point_3d SEOutputData.SERightUpperEyelidExtremePoint i
  | .SELeftEyelidState => pmap parse_u8 SEOutputData.SELeftEyelidState i
  | .SERightEyelidState => pmap parse_u8 SEOutputData.SERightEyelidState i
  | .SEPupilDiameter => pmap parse_f64 SEOutputData.SEPupilDiameter i
  | .SEPupilDiameterQ => pmap parse_f64 SEOutputData.SEPupilDiameterQ i
  | .SELeftPupilDiameter => pmap parse_f64 SEOutputData.SELeftPupilDiameter i
  | .SELeftPupilDiameterQ => pmap parse_f64 SEOutputData.SELeftPupilDiameterQ i
  | .SERightPupilDiameter => pmap parse_f64 SEOutputData.SERightPupilDiameter i
  | .SERightPupilDiameterQ => pmap parse_f64 SEOutputData.SERightPupilDiameterQ i
  | .SEFilteredPupilDiameter => pmap parse_f64 SEOutputData.SEFilteredPupilDiameter i
  | .SEFilteredPupilDiameterQ => pmap parse_f64 SEOutputData.SEFilteredPupilDiameterQ i
  | .SEFilteredLeftPupilDiameter => pmap parse_f64 SEOutputData.SEFilteredLeftPupilDiameter i
  | .SEFilteredLeftPupilDiameterQ => pmap parse_f64 SEOutputData.SEFilteredLeftPupilDiameterQ i
  | .SEFilteredRightPupilDiameter => pmap parse_f64 SEOutputData.SEFilteredRightPupilDiameter i
  | .SEFilteredRightPupilDiameterQ => pmap parse_f64 SEOutputData.SEFilteredRightPupilDiameterQ i
  | .SEGPSPosition => pmap parse_point_2d SEOutputData.SEGPSPosition i
  | .SEGPSGroundSpeed => pmap parse_f64 SEOutputData.SEGPSGroundSpeed i
  | .SEGPSCourse => pmap parse_f64 SEOutputData.SEGPSCourse i
  | .SEGPSTime => pmap parse_u64 SEOutputData.SEGPSTime i
  | .SEEstimatedGazeOrigin => pmap parse_point_3d SEOutputData.SEEstimatedGazeOrigin i
  | .SEEstimatedLeftGazeOrigin => pmap parse_point_3d SEOutputData.SEEstimatedLeftGazeOrigin i
  | .SEEstimatedRightGazeOrigin => pmap parse_point_3d SEOutputData.SEEstimatedRightGazeOrigin i
  | .SEEstimatedEyePosition => pmap parse_point_3d SEOutputData.SEEstimatedEyePosition i
  | .SEEstimatedGazeDirection => pmap parse_vect_3d SEOutputData.SEEstimatedGazeDirection i
  | .SEEstimatedGazeDirectionQ => pmap parse_f64 SEOutputData.SEEstimatedGazeDirectionQ i
  | .SEEstimatedGazeHeading => pmap parse_f64 SEOutputData.SEEstimatedGazeHeading i
  | .SEEstimatedGazePitch => pmap parse_f64 SEOutputData.SEEstimatedGazePitch i
  | .SEEstimatedLeftEyePosition => pmap parse_point_3d SEOutputData.SEEstimatedLeftEyePosition i
  | .SEEstimatedLeftGazeDirection => pmap parse_vect_3d SEOutputData.SEEstimatedLeftGazeDirection i
  | .SEEstimatedLeftGazeDirectionQ => pmap parse_f64 SEOutputData.SEEstimatedLeftGazeDirectionQ i
  | .SEEstimatedLeftGazeHeading => pmap parse_f64 SEOutputData.SEEstimatedLeftGazeHeading i
  | .SEEstimatedLeftGazePitch => pmap parse_f64 SEOutputData.SEEstimatedLeftGazePitch i
  | .SEEstimatedRightEyePosition => pmap parse_point_3d SEOutputData.SEEstimatedRightEyePosition i
  | .SEEstimatedRightGazeDirection => pmap parse_vect_3d SEOutputData.SEEstimatedRightGazeDirection i
  | .SEEstimatedRightGazeDirectionQ => pmap parse_f64 SEOutputData.SEEstimatedRightGazeDirectionQ i
  | .SEEstimatedRightGazeHeading => pmap parse_f64 SEOutputData.SEEstimatedRightGazeHeading i
  | .SEEstimatedRightGazePitch => pmap parse_f64 SEOutputData.SEEstimatedRightGazePitch i
  | .SEFilteredEstimatedGazeDirection => pmap parse_vect_3d SEOutputData.SEFilteredEstimatedGazeDirection i
  | .SEFilteredEstimatedGazeDirectionQ => pmap parse_f64 SEOutputData.SEFilteredEstimatedGazeDirectionQ i
  | .SEFilteredEstimatedGazeHeading => pmap parse_f64 SEOutputData.SEFilteredEstimatedGazeHeading i
  | .SEFilteredEstimatedGazePitch => pmap parse_f64 SEOutputData.SEFilteredEstimatedGazePitch i
  | .SEFilteredEstimatedLeftGazeDirection => pmap parse_vect_3d SEOutputData.SEFilteredEstimatedLeftGazeDirection i
  | .SEFilteredEstimatedLeftGazeDirectionQ => pmap parse_f64 SEOutputData.SEFilteredEstimatedLeftGazeDirectionQ i
  | .SEFilteredEstimatedLeftGazeHeading => pmap parse_f64 SEOutputData.SEFilteredEstimatedLeftGazeHeading i
  | .SEFilteredEstimatedLeftGazePitch => pmap parse_f64 SEOutputData.SEFilteredEstimatedLeftGazePitch i
  | .SEFilteredEstimatedRightGazeDirection => pmap parse_vect_3d SEOutputData.SEFilteredEstimatedRightGazeDirection i
  | .SEFilteredEstimatedRightGazeDirectionQ => pmap parse_f64 SEOutputData.SEFilteredEstimatedRightGazeDirectionQ i
  | .SEFilteredEstimatedRightGazeHeading => pmap parse_f64 SEOutputData.SEFilteredEstimatedRightGazeHeading i
  | .SEFilteredEstimatedRightGazePitch => pmap parse_f64 SEOutputData.SEFilteredEstimatedRightGazePitch i

/-- Modelled from the spec: the numeric field-id assignment
(`SEOutputDataId::try_from(u16)`) lives in a source file of this repository
that is not available under src/ (only its callers and tests are).  The
mapping is a fixed reference table per section 4.2 of the specification;
the concrete values modelled here are those attested by the test vectors in
src/src/parser/mod.rs (`0x0001` = SEFrameNumber, `0x0003` = SETimeStamp).
All numeric ids not attested inside the repository are modelled as unknown. -/
def outputIdOfU16 : Nat → Option SEOutputDataId
  | 0x0001 => some .SEFrameNumber
  | 0x0003 => some .SETimeStamp
  | _ => none

structure PacketHeader where
  length : Nat
  deriving DecidableEq, Repr

structure SubPacketHeader where
  id : SEOutputDataId
  length : Nat

/-- `parse_sub_packet_header` (src/src/parser/mod.rs): take 4 bytes and parse
them completely as (u16 field id, u16 payload length). -/
def parse_sub_packet_header : Parser SubPacketHeader :=
  pbind (ptake 4) fun header_data =>
    onSlice
      (allConsuming
        (pbind (pmapRes parse_u16 outputIdOfU16) fun id =>
          pmap parse_u16 fun length => SubPacketHeader.mk id length))
      header_data

/-- `parse_sub_packet` (src/src/parser/mod.rs): sub-header, then exactly
`length` payload bytes, fully consumed by the field decoder. -/
def parse_sub_packet : Parser SEOutputData :=
  pbind parse_sub_packet_header fun header =>
    pbind (ptake header.length) fun data =>
      onSlice (allConsuming (parse_sub_packet_data header.id)) data

/-- Result of the public `Result<T, ParseFailedError>` functions: `ok`, a
`ParseFailedError` (`err`), a propagating panic, or the embedding's fuel
marker. -/
inductive RResult (α : Type) where
  | ok (val : α)
  | err
  | panic
  | fuel
  deriving DecidableEq, Repr

def PACKET_HEADER_SIZE : Nat := 4 + 2 + 2

/-- Collapse a parser outcome into the public `Result` shape: any `nom`
error (including `Incomplete`) becomes `ParseFailedError`, a panic
propagates. -/
def toResult {α : Type} : PResult α → RResult α
  | .ok _ v => .ok v
  | .err => .err
  | .incomplete => .err
  | .panic => .panic
  | .fuel => .fuel

/-- `parse_packet_header` (src/src/parser/mod.rs): magic "SEPD", protocol
type 0x0004, then the big-endian u16 body length; every parse failure is
collapsed into `ParseFailedError`. -/
def parse_packet_header (i : List Nat) : RResult PacketHeader :=
  toResult
    ((pbind (ptag [0x53, 0x45, 0x50, 0x44]) fun _ =>
      pbind (ptag [0x00, 0x04]) fun _ =>
        pmap parse_u16 fun length => PacketHeader.mk length) i)

/-- Fuelled embedding of `many_till(parse_sub_packet, eof)`: parse
sub-packets until the input is exhausted. -/
def subPacketsF : Nat → Parser (List SEOutputData)
  | 0 => fun _ => .fuel
  | f + 1 => fun i =>
    match i with
    | [] => .ok [] []
    | _ :: _ =>
      match parse_sub_packet i with
      | .ok r d =>
        match subPacketsF f r with
        | .ok r2 ds => .ok r2 (d :: ds)
        | e => castErr e
      | e => castErr e

/-- `many_till(parse_sub_packet, eof)` with canonical fuel (always
sufficient: every sub-packet consumes at least its 4-byte sub-header). -/
def subPackets : Parser (List SEOutputData) := fun i => subPacketsF (i.length + 1) i

/-- `parse_packet_data` (src/src/parser/mod.rs): take exactly
`header.length` body bytes and parse them as a sub-packet stream running to
`eof`; anything short of full success is `ParseFailedError`, while a decoder
panic propagates. -/
def parse_packet_data (header : PacketHeader) (i : List Nat) :
    RResult (List SEOutputData) :=
  toResult ((pbind (ptake header.length) fun body => onSlice subPackets body) i)

/-- `parse_packet` (src/src/parser/mod.rs). -/
def parse_packet (i : List Nat) : RResult (List SEOutputData) :=
  match parse_packet_header i with
  | .ok header => parse_packet_data header (i.drop PACKET_HEADER_SIZE)
  | .err => .err
  | .panic => .panic
  | .fuel => .fuel

/-!  Models of src/src/client.rs.  -/

/-- Observable state of `TcpStreamReader`: the owned byte buffer, the read
cursor, and the buffer's capacity (`Vec::with_capacity` is modelled as
allocating exactly the requested capacity). -/
structure ReaderState where
  buf : List Nat
  pos : Nat
  cap : Nat
  deriving DecidableEq, Repr

/-- `TcpStreamReader::new`. -/
def readerNew : ReaderState := ReaderState.mk [] 0 0

/-- `TcpStreamReader::grow(wanted)` run against a non-blocking source with no
data available: if remaining capacity past the cursor is short, compact
(drop consumed bytes, reset `pos`) and reallocate; then `resize` extends the
buffer with `wanted` zero bytes, after which `read_exact` immediately fails
with `WouldBlock` having read nothing — the source returns the error without
rolling the `resize` back. -/
def growEmpty (s : ReaderState) (wanted : Nat) : ReaderState :=
  let s1 :=
    if s.cap - s.pos < wanted then
      ReaderState.mk (s.buf.drop s.pos) 0 (max (s.pos + wanted) s.cap)
    else s
  ReaderState.mk (s1.buf ++ List.replicate wanted 0) s1.pos
    (max s1.cap (s1.buf.length + wanted))

/-- Result of one `peek` call. -/
inductive PeekResult where
  | bytes (bs : List Nat)
  | wouldBlock
  deriving DecidableEq, Repr

/-- `TcpStreamReader::peek(n)` (via `reserve`) against a source with no data:
returns the buffered bytes when enough are held, otherwise grows and
surfaces `WouldBlock`. -/
def peekEmpty (s : ReaderState) (n : Nat) : ReaderState × PeekResult :=
  let current_length := s.buf.length - s.pos
  if current_length < n then (growEmpty s (n - current_length), .wouldBlock)
  else (s, .bytes ((s.buf.drop s.pos).take n))

/-- Resynchronisation loop of `TCPClient::next` over a fully buffered byte
stream: repeatedly try `parse_packet_header` on the next 8 bytes, consuming
1 byte per failure; returns how many single bytes were consumed and the
header found, or `none` when the data runs out. -/
def seekHeader : List Nat → Option (Nat × PacketHeader)
  | [] => none
  | b :: rest =>
    match parse_packet_header (List.take 8 (b :: rest)) with
    | .ok header => some (0, header)
    | _ => Option.map (fun p => (p.1 + 1, p.2)) (seekHeader rest)

/-- `TCPClient::next` over a fully buffered byte stream: resynchronise to a
valid header, consume the 8 header bytes, read exactly `header.length` body
bytes and parse them; `none` models blocking for more input. -/
def tcpNext (data : List Nat) : Option (Nat × RResult (List SEOutputData)) :=
  match seekHeader data with
  | none => none
  | some (k, header) =>
    if header.length ≤ (data.drop (k + PACKET_HEADER_SIZE)).length then
      some (k, parse_packet_data header
        ((data.drop (k + PACKET_HEADER_SIZE)).take header.length))
    else none

/-- `TCPClientState` (src/src/client.rs). -/
inductive TCPClientStateM where
  | pending (addr : String)
  | connected (stream_reader : ReaderState)
  | disconnected

/-- First action a `Client` call takes: either it proceeds to socket I/O, or
it dies on the fail-fast `panic!("invalid state")` arm before touching any
socket. -/
inductive ClientStep where
  | io
  | panicInvalidState
  deriving DecidableEq, Repr

/-- `TCPClient::connect`: socket I/O happens only in the `Pending` arm; every
other state panics immediately. -/
def connectStep : TCPClientStateM → ClientStep
  | .pending _ => .io
  | _ => .panicInvalidState

/-- `TCPClient::next`: the reader is used only in the `Connected` arm; every
other state panics immediately. -/
def nextStep : TCPClientStateM → ClientStep
  | .connected _ => .io
  | _ => .panicInvalidState

/-!  Generic facts about the embedded combinators.  -/

/-- `castErr` never produces a success. -/
lemma castErr_ne_ok {α β : Type} {e : PResult α} {r : List Nat} {v : β} :
    castErr e ≠ PResult.ok r v := by
  cases e <;> simp [castErr]

/-- `castErr` reports fuel exhaustion only if its argument did. -/
lemma castErr_eq_fuel {α β : Type} {e : PResult α}
    (h : castErr (β := β) e = PResult.fuel) : e = PResult.fuel := by
  cases e <;> simp_all [castErr]

lemma pbind_ok {α β : Type} {p : Parser α} {f : α → Parser β} {i r : List Nat}
    {v : β} (h : pbind p f i = .ok r v) :
    ∃ r1 v1, p i = .ok r1 v1 ∧ f v1 r1 = .ok r v := by
  unfold pbind at h
  split at h
  next r1 v1 heq => exact ⟨r1, v1, heq, h⟩
  next => exact absurd h castErr_ne_ok

lemma pbind_fuel {α β : Type} {p : Parser α} {f : α → Parser β} {i : List Nat}
    (h : pbind p f i = .fuel) :
    p i = .fuel ∨ ∃ r1 v1, p i = .ok r1 v1 ∧ f v1 r1 = .fuel := by
  unfold pbind at h
  split at h
  next r1 v1 heq => exact Or.inr ⟨r1, v1, heq, h⟩
  next => exact Or.inl (castErr_eq_fuel h)

lemma pmap_ok {α β : Type} {p : Parser α} {g : α → β} {i r : List Nat} {v : β}
    (h : pmap p g i = .ok r v) : ∃ v1, p i = .ok r v1 ∧ v = g v1 := by
  unfold pmap at h
  split at h
  next r1 v1 heq =>
    injection h with h1 h2
    exact ⟨v1, h1 ▸ heq, h2.symm⟩
  next => exact absurd h castErr_ne_ok

lemma pmap_fuel {α β : Type} {p : Parser α} {g : α → β} {i : List Nat}
    (h : pmap p g i = .fuel) : p i = .fuel := by
  unfold pmap at h
  split at h
  next r1 v1 heq => exact absurd h (by simp)
  next => exact castErr_eq_fuel h

lemma pmapRes_ok {α β : Type} {p : Parser α} {g : α → Option β} {i r : List Nat}
    {v : β} (h : pmapRes p g i = .ok r v) :
    ∃ v1, p i = .ok r v1 ∧ g v1 = some v := by
  unfold pmapRes at h
  split at h
  next r1 v1 heq =>
    split at h
    next w hg =>
      injection h with h1 h2
      exact ⟨v1, h1 ▸ heq, h2 ▸ hg⟩
    next hg => exact absurd h (by simp)
  next => exact absurd h castErr_ne_ok

lemma pmapRes_fuel {α β : Type} {p : Parser α} {g : α → Option β} {i : List Nat}
    (h : pmapRes p g i = .fuel) : p i = .fuel := by
  unfold pmapRes at h
  split at h
  next r1 v1 heq =>
    split at h
    next w hg => exact absurd h (by simp)
    next hg => exact absurd h (by simp)
  next => exact castErr_eq_fuel h

lemma beNat_ok {n : Nat} {i r : List Nat} {v : Nat} (h : beNat n i = .ok r v) :
    r = i.drop n ∧ n ≤ i.length := by
  simp only [beNat] at h
  split at h
  next hle =>
    injection h with h1 h2
    exact ⟨h1.symm, hle⟩
  next hle => exact absurd h (by simp)

lemma beNat_ne_fuel {n : Nat} {i : List Nat} : beNat n i ≠ .fuel := by
  simp only [beNat]
  split <;> simp

lemma ptake_ok {n : Nat} {i r v : List Nat} (h : ptake n i = .ok r v) :
    r = i.drop n ∧ v = i.take n ∧ n ≤ i.length := by
  simp only [ptake] at h
  split at h
  next hle =>
    injection h with h1 h2
    exact ⟨h1.symm, h2.symm, hle⟩
  next hle => exact absurd h (by simp)

lemma ptake_ne_fuel {n : Nat} {i : List Nat} : ptake n i ≠ .fuel := by
  simp only [ptake]
  split <;> simp

lemma ptag_ok {t i r v : List Nat} (h : ptag t i = .ok r v) :
    r = i.drop t.length ∧ i.take t.length = t := by
  simp only [ptag] at h
  split at h
  next hle =>
    split at h
    next heq =>
      injection h with h1 h2
      exact ⟨h1.symm, heq⟩
    next heq => exact absurd h (by simp)
  next hle => split at h <;> exact absurd h (by simp)

lemma ptag_ne_fuel {t i : List Nat} : ptag t i ≠ .fuel := by
  simp only [ptag]
  split <;> split <;> simp

lemma allConsuming_ok {α : Type} {p : Parser α} {i r : List Nat} {v : α}
    (h : allConsuming p i = .ok r v) : r = [] ∧ p i = .ok [] v := by
  unfold allConsuming at h
  split at h
  next v1 heq =>
    injection h with h1 h2
    exact ⟨h1.symm, h2 ▸ heq⟩
  next a as v1 heq => exact absurd h (by simp)
  next h1 h2 =>
    cases r with
    | nil => exact (h1 v h).elim
    | cons a as => exact (h2 a as v h).elim

lemma allConsuming_not_ok {α : Type} {p : Parser α} {i : List Nat}
    {e : PResult α} (he : p i = e) (hne1 : ∀ v, e ≠ .ok [] v)
    (hne2 : ∀ a as v, e ≠ .ok (a :: as) v) : allConsuming p i = e := by
  unfold allConsuming
  rw [he]
  cases e with
  | ok r1 v1 =>
    cases r1 with
    | nil => exact absurd rfl (hne1 v1)
    | cons a as => exact absurd rfl (hne2 a as v1)
  | err => rfl
  | incomplete => rfl
  | panic => rfl
  | fuel => rfl

lemma allConsuming_fuel {α : Type} {p : Parser α} {i : List Nat}
    (h : allConsuming p i = .fuel) : p i = .fuel := by
  unfold allConsuming at h
  split at h
  next v1 heq => exact absurd h (by simp)
  next a as v1 heq => exact absurd h (by simp)
  next h1 h2 => exact h

lemma onSlice_ok {α : Type} {p : Parser α} {d i r : List Nat} {v : α}
    (h : onSlice p d i = .ok r v) : r = i ∧ ∃ r2, p d = .ok r2 v := by
  unfold onSlice at h
  split at h
  next r2 v2 heq =>
    injection h with h1 h2
    exact ⟨h1.symm, r2, h2 ▸ heq⟩
  next => exact absurd h castErr_ne_ok

lemma onSlice_fuel {α : Type} {p : Parser α} {d i : List Nat}
    (h : onSlice p d i = .fuel) : p d = .fuel := by
  unfold onSlice at h
  split at h
  next r2 v2 heq => exact absurd h (by simp)
  next => exact castErr_eq_fuel h

/-- A parser whose leftover never exceeds its input. -/
def Consuming {α : Type} (p : Parser α) : Prop :=
  ∀ i r v, p i = PResult.ok r v → r.length ≤ i.length

/-- A parser that never reports the embedding fuel marker. -/
def NoFuel {α : Type} (p : Parser α) : Prop := ∀ i, p i ≠ PResult.fuel

lemma consuming_pbind {α β : Type} {p : Parser α} {f : α → Parser β}
    (hp : Consuming p) (hf : ∀ a, Consuming (f a)) : Consuming (pbind p f) := by
  intro i r v h
  obtain ⟨r1, v1, h1, h2⟩ := pbind_ok h
  exact le_trans (hf v1 r1 r v h2) (hp i r1 v1 h1)

lemma consuming_pmap {α β : Type} {p : Parser α} {g : α → β}
    (hp : Consuming p) : Consuming (pmap p g) := by
  intro i r v h
  obtain ⟨v1, h1, _⟩ := pmap_ok h
  exact hp i r v1 h1

lemma consuming_pmapRes {α β : Type} {p : Parser α} {g : α → Option β}
    (hp : Consuming p) : Consuming (pmapRes p g) := by
  intro i r v h
  obtain ⟨v1, h1, _⟩ := pmapRes_ok h
  exact hp i r v1 h1

lemma consuming_beNat {n : Nat} : Consuming (beNat n) := by
  intro i r v h
  obtain ⟨h1, _⟩ := beNat_ok h
  simp [h1]

lemma consuming_ptake {n : Nat} : Consuming (ptake n) := by
  intro i r v h
  obtain ⟨h1, _, _⟩ := ptake_ok h
  simp [h1]

lemma consuming_ptag {t : List Nat} : Consuming (ptag t) := by
  intro i r v h
  obtain ⟨h1, _⟩ := ptag_ok h
  simp [h1]

lemma consuming_onSlice {α : Type} {p : Parser α} {d : List Nat} :
    Consuming (onSlice p d) := by
  intro i r v h
  obtain ⟨h1, _⟩ := onSlice_ok h
  simp [h1]

lemma pcount_zero {α : Type} {p : Parser α} {i : List Nat} :
    pcount p 0 i = .ok i [] := rfl

lemma pcount_succ_ok {α : Type} {p : Parser α} {n : Nat} {i r : List Nat}
    {vs : List α} (h : pcount p (n + 1) i = .ok r vs) :
    ∃ r1 v1 vs1, p i = .ok r1 v1 ∧ pcount p n r1 = .ok r vs1 ∧ vs = v1 :: vs1 := by
  unfold pcount at h
  split at h
  next r1 v1 heq =>
    split at h
    next r2 vs2 hc =>
      injection h with h1 h2
      exact ⟨r1, v1, vs2, heq, h1 ▸ hc, h2.symm⟩
    next => exact absurd h castErr_ne_ok
  next => exact absurd h castErr_ne_ok

lemma consuming_pcount {α : Type} {p : Parser α} (hp : Consuming p) :
    ∀ n, Consuming (pcount p n) := by
  intro n
  induction n with
  | zero =>
    intro i r v h
    rw [pcount_zero] at h
    injection h with h1 _
    simp [h1.symm]
  | succ n ih =>
    intro i r v h
    obtain ⟨r1, v1, vs1, heq, hc, _⟩ := pcount_succ_ok h
    exact le_trans (ih r1 r vs1 hc) (hp i r1 v1 heq)

lemma noFuel_pbind {α β : Type} {p : Parser α} {f : α → Parser β}
    (hp : NoFuel p) (hf : ∀ a, NoFuel (f a)) : NoFuel (pbind p f) := by
  intro i h
  rcases pbind_fuel h with h1 | ⟨r1, v1, _, h2⟩
  · exact hp i h1
  · exact hf v1 r1 h2

lemma noFuel_pmap {α β : Type} {p : Parser α} {g : α → β} (hp : NoFuel p) :
    NoFuel (pmap p g) := fun i h => hp i (pmap_fuel h)

lemma noFuel_pmapRes {α β : Type} {p : Parser α} {g : α → Option β}
    (hp : NoFuel p) : NoFuel (pmapRes p g) := fun i h => hp i (pmapRes_fuel h)

lemma noFuel_beNat {n : Nat} : NoFuel (beNat n) := fun _ => beNat_ne_fuel

lemma pcount_succ_fuel {α : Type} {p : Parser α} {n : Nat} {i : List Nat}
    (h : pcount p (n + 1) i = .fuel) :
    p i = .fuel ∨ ∃ r1 v1, p i = .ok r1 v1 ∧ pcount p n r1 = .fuel := by
  unfold pcount at h
  split at h
  next r1 v1 heq =>
    split at h
    next r2 vs2 hc => exact absurd h (by simp)
    next => exact Or.inr ⟨r1, v1, heq, castErr_eq_fuel h⟩
  next => exact Or.inl (castErr_eq_fuel h)

lemma noFuel_pcount {α : Type} {p : Parser α} (hp : NoFuel p) :
    ∀ n, NoFuel (pcount p n) := by
  intro n
  induction n with
  | zero => intro i h; exact absurd h (by rw [pcount_zero]; simp)
  | succ n ih =>
    intro i h
    rcases pcount_succ_fuel h with h1 | ⟨r1, v1, _, h2⟩
    · exact hp i h1
    · exact ih r1 h2

/-- Fuel exhaustion inside `pcount` traces back to a single run of the item
parser on a no-longer input. -/
lemma pcount_fuel_bound {α : Type} {p : Parser α} (hp : Consuming p) :
    ∀ n i, pcount p n i = .fuel → ∃ j, j.length ≤ i.length ∧ p j = .fuel := by
  intro n
  induction n with
  | zero => intro i h; exact absurd h (by rw [pcount_zero]; simp)
  | succ n ih =>
    intro i h
    rcases pcount_succ_fuel h with h1 | ⟨r1, v1, heq, h2⟩
    · exact ⟨i, le_refl _, h1⟩
    · obtain ⟨j, hj, hjf⟩ := ih r1 h2
      exact ⟨j, le_trans hj (hp i r1 v1 heq), hjf⟩

/-- Item-wise congruence for `pcount` on inputs below a length bound. -/
lemma pcount_congr {α : Type} {p q : Parser α} {B : Nat} (hp : Consuming p)
    (hpq : ∀ j, j.length ≤ B → p j = q j) :
    ∀ n i, i.length ≤ B → pcount p n i = pcount q n i := by
  intro n
  induction n with
  | zero => intro i _; rfl
  | succ n ih =>
    intro i hiB
    unfold pcount
    rw [← hpq i hiB]
    split
    next r1 v1 heq => rw [ih r1 (le_trans (hp i r1 v1 heq) hiB)]
    next => rfl

/-!  The variant decoder: arm table, consumption, fuel irrelevance.  -/

/-- The per-type-tag decoder table selected by `parse_variant` after reading
the tag, with the recursive arms at fuel `f`. -/
def variantArmF (f : Nat) : SETypeId → Parser SEVariant
  | .U8 => pmap parse_u8 SEVariant.U8
  | .U16 => pmap parse_u16 SEVariant.U16
  | .U32 => pmap parse_u32 SEVariant.U32
  | .S32 => pmap parse_s32 SEVariant.S32
  | .U64 => pmap parse_u64 SEVariant.U64
  | .F64 => pmap parse_f64 SEVariant.F64
  | .Point2D => pmap parse_point_2d SEVariant.Point2D
  | .Vect2D => pmap parse_vect_2d SEVariant.Vect2D
  | .Point3D => pmap parse_point_3d SEVariant.Point3D
  | .Vect3D => pmap parse_vect_3d SEVariant.Vect3D
  | .String => pmap parse_string SEVariant.String
  | .Vector => pmap (parse_vectorP (parse_variantF f)) SEVariant.Vector
  | .Struct => pmap (parse_structP (parse_variantF f)) SEVariant.Struct
  | .WorldIntersection => pmap parse_world_intersection SEVariant.WorldIntersection
  | .WorldIntersections => pmap parse_world_intersections SEVariant.WorldIntersections
  | .PacketHeader => fun _ => .panic
  | .SubPacketHeader => fun _ => .panic
  | .F32 => pmap parse_f32 SEVariant.F32
  | .Matrix3X3 => fun _ => .panic
  | .Matrix2x2 => fun _ => .panic
  | .Quaternion => pmap parse_quaternion SEVariant.Quaternion
  | .UserMarker => pmap parse_user_marker SEVariant.UserMarker

lemma parse_variantF_succ (f : Nat) :
    parse_variantF (f + 1) = pbind (pmapRes parse_u16 toSETypeId) (variantArmF f) := by
  funext i
  unfold parse_variantF pbind
  cases pmapRes parse_u16 toSETypeId i
  case ok r tid => cases tid <;> rfl
  all_goals rfl

lemma consuming_okP {α : Type} (x : α) : Consuming (fun i => PResult.ok i x) := by
  intro i r v h
  injection h with h1 _
  rw [h1]

lemma consuming_panicP {α : Type} : Consuming (α := α) (fun _ => PResult.panic) := by
  intro i r v h
  exact absurd h (by simp)

lemma noFuel_okP {α : Type} (x : α) : NoFuel (fun i => PResult.ok i x) := by
  intro i h
  exact absurd h (by simp)

lemma noFuel_panicP {α : Type} : NoFuel (α := α) (fun _ => PResult.panic) := by
  intro i h
  exact absurd h (by simp)

lemma consuming_parse_string : Consuming parse_string :=
  consuming_pbind consuming_beNat fun length =>
    consuming_pmapRes (consuming_pcount consuming_beNat length)

lemma noFuel_parse_string : NoFuel parse_string :=
  noFuel_pbind noFuel_beNat fun length =>
    noFuel_pmapRes (noFuel_pcount noFuel_beNat length)

lemma consuming_parse_point_2d : Consuming parse_point_2d :=
  consuming_pbind consuming_beNat fun _ => consuming_pmap consuming_beNat

lemma consuming_parse_vect_2d : Consuming parse_vect_2d :=
  consuming_pbind consuming_beNat fun _ => consuming_pmap consuming_beNat

lemma consuming_parse_point_3d : Consuming parse_point_3d :=
  consuming_pbind consuming_beNat fun _ =>
    consuming_pbind consuming_beNat fun _ => consuming_pmap consuming_beNat

lemma consuming_parse_vect_3d : Consuming parse_vect_3d :=
  consuming_pbind consuming_beNat fun _ =>
    consuming_pbind consuming_beNat fun _ => consuming_pmap consuming_beNat

lemma consuming_parse_quaternion : Consuming parse_quaternion :=
  consuming_pbind consuming_beNat fun _ =>
    consuming_pbind consuming_beNat fun _ =>
      consuming_pbind consuming_beNat fun _ => consuming_pmap consuming_beNat

lemma noFuel_parse_point_2d : NoFuel parse_point_2d :=
  noFuel_pbind noFuel_beNat fun _ => noFuel_pmap noFuel_beNat

lemma noFuel_parse_vect_2d : NoFuel parse_vect_2d :=
  noFuel_pbind noFuel_beNat fun _ => noFuel_pmap noFuel_beNat

lemma noFuel_parse_point_3d : NoFuel parse_point_3d :=
  noFuel_pbind noFuel_beNat fun _ =>
    noFuel_pbind noFuel_beNat fun _ => noFuel_pmap noFuel_beNat

lemma noFuel_parse_vect_3d : NoFuel parse_vect_3d :=
  noFuel_pbind noFuel_beNat fun _ =>
    noFuel_pbind noFuel_beNat fun _ => noFuel_pmap noFuel_beNat

lemma noFuel_parse_quaternion : NoFuel parse_quaternion :=
  noFuel_pbind noFuel_beNat fun _ =>
    noFuel_pbind noFuel_beNat fun _ =>
      noFuel_pbind noFuel_beNat fun _ => noFuel_pmap noFuel_beNat

lemma consuming_parse_world_intersection_item :
    Consuming parse_world_intersection_item :=
  consuming_pbind consuming_parse_point_3d fun _ =>
    consuming_pbind consuming_parse_point_3d fun _ =>
      consuming_pmap consuming_parse_string

lemma noFuel_parse_world_intersection_item :
    NoFuel parse_world_intersection_item :=
  noFuel_pbind noFuel_parse_point_3d fun _ =>
    noFuel_pbind noFuel_parse_point_3d fun _ =>
      noFuel_pmap noFuel_parse_string

lemma consuming_parse_world_intersection : Consuming parse_world_intersection := by
  apply consuming_pbind consuming_beNat
  intro a
  match a with
  | 0 => exact consuming_okP none
  | 1 => exact consuming_pmap consuming_parse_world_intersection_item
  | _ + 2 => exact consuming_panicP

lemma noFuel_parse_world_intersection : NoFuel parse_world_intersection := by
  apply noFuel_pbind noFuel_beNat
  intro a
  match a with
  | 0 => exact noFuel_okP none
  | 1 => exact noFuel_pmap noFuel_parse_world_intersection_item
  | _ + 2 => exact noFuel_panicP

lemma consuming_parse_world_intersections : Consuming parse_world_intersections :=
  consuming_pbind consuming_beNat fun n =>
    consuming_pcount consuming_parse_world_intersection_item n

lemma noFuel_parse_world_intersections : NoFuel parse_world_intersections :=
  noFuel_pbind noFuel_beNat fun n =>
    noFuel_pcount noFuel_parse_world_intersection_item n

lemma consuming_parse_user_marker_item : Consuming parse_user_marker_item :=
  consuming_pbind (consuming_pmap consuming_beNat) fun _ =>
    consuming_pbind consuming_beNat fun _ =>
      consuming_pbind consuming_beNat fun _ =>
        consuming_pbind consuming_beNat fun _ => consuming_pmap consuming_beNat

lemma noFuel_parse_user_marker_item : NoFuel parse_user_marker_item :=
  noFuel_pbind (noFuel_pmap noFuel_beNat) fun _ =>
    noFuel_pbind noFuel_beNat fun _ =>
      noFuel_pbind noFuel_beNat fun _ =>
        noFuel_pbind noFuel_beNat fun _ => noFuel_pmap noFuel_beNat

lemma consuming_parse_user_marker : Consuming parse_user_marker := by
  apply consuming_pbind consuming_beNat
  intro a
  match a with
  | 0 => exact consuming_okP none
  | 1 => exact consuming_pmap consuming_parse_user_marker_item
  | _ + 2 => exact consuming_panicP

lemma noFuel_parse_user_marker : NoFuel parse_user_marker := by
  apply noFuel_pbind noFuel_beNat
  intro a
  match a with
  | 0 => exact noFuel_okP none
  | 1 => exact noFuel_pmap noFuel_parse_user_marker_item
  | _ + 2 => exact noFuel_panicP

lemma consuming_parse_struct_itemP {p : Parser SEVariant} (hp : Consuming p) :
    Consuming (parse_struct_itemP p) :=
  consuming_pbind consuming_parse_string fun _ => consuming_pmap hp

lemma consuming_variantArmF {f : Nat} (hrec : Consuming (parse_variantF f)) :
    ∀ tid, Consuming (variantArmF f tid) := by
  intro tid
  cases tid
  case U8 => exact consuming_pmap consuming_beNat
  case U16 => exact consuming_pmap consuming_beNat
  case U32 => exact consuming_pmap consuming_beNat
  case S32 => exact consuming_pmap (consuming_pmap consuming_beNat)
  case U64 => exact consuming_pmap consuming_beNat
  case F64 => exact consuming_pmap consuming_beNat
  case Point2D => exact consuming_pmap consuming_parse_point_2d
  case Vect2D => exact consuming_pmap consuming_parse_vect_2d
  case Point3D => exact consuming_pmap consuming_parse_point_3d
  case Vect3D => exact consuming_pmap consuming_parse_vect_3d
  case String => exact consuming_pmap consuming_parse_string
  case Vector =>
    exact consuming_pmap (consuming_pbind consuming_beNat fun n =>
      consuming_pcount hrec n)
  case Struct =>
    exact consuming_pmap (consuming_pbind consuming_beNat fun n =>
      consuming_pcount (consuming_parse_struct_itemP hrec) n)
  case WorldIntersection => exact consuming_pmap consuming_parse_world_intersection
  case WorldIntersections => exact consuming_pmap consuming_parse_world_intersections
  case PacketHeader => exact consuming_panicP
  case SubPacketHeader => exact consuming_panicP
  case F32 => exact consuming_pmap consuming_beNat
  case Matrix3X3 => exact consuming_panicP
  case Matrix2x2 => exact consuming_panicP
  case Quaternion => exact consuming_pmap consuming_parse_quaternion
  case UserMarker => exact consuming_pmap consuming_parse_user_marker

lemma consuming_parse_variantF : ∀ f, Consuming (parse_variantF f) := by
  intro f
  induction f with
  | zero =>
    intro i r v h
    exact absurd h (by simp [parse_variantF])
  | succ f ih =>
    rw [parse_variantF_succ]
    exact consuming_pbind (consuming_pmapRes consuming_beNat) (consuming_variantArmF ih)

/-- Fuel exhaustion never occurs once the fuel exceeds the input length: the
decoder consumes the 2-byte type tag before every recursive call, so the
recursion depth is bounded by the input length. -/
lemma parse_variantF_ne_fuel : ∀ f i, i.length < f → parse_variantF f i ≠ .fuel := by
  intro f
  induction f with
  | zero => intro i h; omega
  | succ f ih =>
    intro i hlen h
    rw [parse_variantF_succ] at h
    rcases pbind_fuel h with h1 | ⟨r, tid, hok, h2⟩
    · exact noFuel_pmapRes noFuel_beNat i h1
    · obtain ⟨v1, hbe, _⟩ := pmapRes_ok hok
      obtain ⟨hr, h2len⟩ := beNat_ok hbe
      have hrlen : r.length = i.length - 2 := by rw [hr]; simp
      cases tid
      case U8 => exact noFuel_pmap noFuel_beNat r h2
      case U16 => exact noFuel_pmap noFuel_beNat r h2
      case U32 => exact noFuel_pmap noFuel_beNat r h2
      case S32 => exact noFuel_pmap (noFuel_pmap noFuel_beNat) r h2
      case U64 => exact noFuel_pmap noFuel_beNat r h2
      case F64 => exact noFuel_pmap noFuel_beNat r h2
      case Point2D => exact noFuel_pmap noFuel_parse_point_2d r h2
      case Vect2D => exact noFuel_pmap noFuel_parse_vect_2d r h2
      case Point3D => exact noFuel_pmap noFuel_parse_point_3d r h2
      case Vect3D => exact noFuel_pmap noFuel_parse_vect_3d r h2
      case String => exact noFuel_pmap noFuel_parse_string r h2
      case Vector =>
        have hv := pmap_fuel h2
        rcases pbind_fuel hv with h3 | ⟨r2, len, hok2, h4⟩
        · exact noFuel_beNat r h3
        · obtain ⟨hr2, h2len2⟩ := beNat_ok hok2
          have hr2len : r2.length = r.length - 2 := by rw [hr2]; simp
          obtain ⟨j, hj, hjf⟩ := pcount_fuel_bound (consuming_parse_variantF f) len r2 h4
          exact ih j (by omega) hjf
      case Struct =>
        have hv := pmap_fuel h2
        rcases pbind_fuel hv with h3 | ⟨r2, len, hok2, h4⟩
        · exact noFuel_beNat r h3
        · obtain ⟨hr2, h2len2⟩ := beNat_ok hok2
          have hr2len : r2.length = r.length - 2 := by rw [hr2]; simp
          obtain ⟨j, hj, hjf⟩ :=
            pcount_fuel_bound (consuming_parse_struct_itemP (consuming_parse_variantF f))
              len r2 h4
          rcases pbind_fuel hjf with h5 | ⟨r3, key, hok3, h6⟩
          · exact noFuel_parse_string j h5
          · have hr3 : r3.length ≤ j.length := consuming_parse_string j r3 key hok3
            exact ih r3 (by omega) (pmap_fuel h6)
      case WorldIntersection => exact noFuel_pmap noFuel_parse_world_intersection r h2
      case WorldIntersections => exact noFuel_pmap noFuel_parse_world_intersections r h2
      case PacketHeader => exact noFuel_panicP r h2
      case SubPacketHeader => exact noFuel_panicP r h2
      case F32 => exact noFuel_pmap noFuel_beNat r h2
      case Matrix3X3 => exact noFuel_panicP r h2
      case Matrix2x2 => exact noFuel_panicP r h2
      case Quaternion => exact noFuel_pmap noFuel_parse_quaternion r h2
      case UserMarker => exact noFuel_pmap noFuel_parse_user_marker r h2

lemma parse_struct_itemP_congr {p q : Parser SEVariant} {B : Nat}
    (hpq : ∀ j, j.length ≤ B → p j = q j) :
    ∀ j, j.length ≤ B → parse_struct_itemP p j = parse_struct_itemP q j := by
  intro j hj
  unfold parse_struct_itemP pbind
  split
  next r1 key heq =>
    have hr1 : r1.length ≤ j.length := consuming_parse_string j r1 key heq
    simp only [pmap]
    rw [hpq r1 (le_trans hr1 hj)]
  next => rfl

lemma parse_vectorP_congr {p q : Parser SEVariant} {B : Nat} (hp : Consuming p)
    (hpq : ∀ j, j.length ≤ B → p j = q j) :
    ∀ j, j.length ≤ B + 2 → parse_vectorP p j = parse_vectorP q j := by
  intro j hj
  unfold parse_vectorP pbind
  split
  next r2 len heq =>
    obtain ⟨hr2, h2len⟩ := beNat_ok heq
    refine pcount_congr hp hpq len r2 ?_
    rw [hr2]
    simp only [List.length_drop]
    omega
  next => rfl

lemma parse_structP_congr {p q : Parser SEVariant} {B : Nat} (hp : Consuming p)
    (hpq : ∀ j, j.length ≤ B → p j = q j) :
    ∀ j, j.length ≤ B + 2 → parse_structP p j = parse_structP q j := by
  intro j hj
  unfold parse_structP pbind
  split
  next r2 len heq =>
    obtain ⟨hr2, h2len⟩ := beNat_ok heq
    refine pcount_congr (consuming_parse_struct_itemP hp)
      (parse_struct_itemP_congr hpq) len r2 ?_
    rw [hr2]
    simp only [List.length_drop]
    omega
  next => rfl

/-- Fuel irrelevance: any two fuels exceeding the input length give the same
result, so `parse_variant`'s canonical fuel computes the true semantics. -/
lemma parse_variantF_mono : ∀ f g i, i.length < f → i.length < g →
    parse_variantF f i = parse_variantF g i := by
  intro f
  induction f with
  | zero => intro g i hf; omega
  | succ f ih =>
    intro g i hf hg
    cases g with
    | zero => omega
    | succ g =>
      rw [parse_variantF_succ, parse_variantF_succ]
      unfold pbind
      split
      next r tid hok =>
        obtain ⟨v1, hbe, _⟩ := pmapRes_ok hok
        obtain ⟨hr, h2len⟩ := beNat_ok hbe
        have hrlen : r.length = i.length - 2 := by rw [hr]; simp
        have hagree : ∀ j, j.length ≤ i.length - 4 →
            parse_variantF f j = parse_variantF g j := by
          intro j hj
          exact ih g j (by omega) (by omega)
        cases tid <;> try rfl
        case Vector =>
          show pmap (parse_vectorP (parse_variantF f)) _ r =
            pmap (parse_vectorP (parse_variantF g)) _ r
          unfold pmap
          rw [parse_vectorP_congr (consuming_parse_variantF f) hagree r (by omega)]
        case Struct =>
          show pmap (parse_structP (parse_variantF f)) _ r =
            pmap (parse_structP (parse_variantF g)) _ r
          unfold pmap
          rw [parse_structP_congr (consuming_parse_variantF f) hagree r (by omega)]
      next => rfl

/-- With fuel above the input length, `parse_variantF` computes
`parse_variant`. -/
lemma parse_variantF_eq_parse_variant {f : Nat} {i : List Nat}
    (h : i.length < f) : parse_variantF f i = parse_variant i :=
  parse_variantF_mono f (i.length + 1) i h (by omega)

/-- Every successful variant decode consumes at least its 2-byte type tag. -/
lemma parse_variant_consumes {i r : List Nat} {v : SEVariant}
    (h : parse_variant i = .ok r v) : r.length + 2 ≤ i.length := by
  unfold parse_variant at h
  have h1 : parse_variantF (i.length + 1) i =
      pbind (pmapRes parse_u16 toSETypeId) (variantArmF i.length) i := by
    rw [parse_variantF_succ]
  rw [h1] at h
  obtain ⟨r1, tid, hok, h2⟩ := pbind_ok h
  obtain ⟨v1, hbe, _⟩ := pmapRes_ok hok
  obtain ⟨hr1, h2len⟩ := beNat_ok hbe
  have harm : r.length ≤ r1.length :=
    consuming_variantArmF (consuming_parse_variantF i.length) tid r1 r v h2
  have hr1len : r1.length = i.length - 2 := by rw [hr1]; simp
  omega

/-!  Framing lemmas: sub-packets and the packet body stream.  -/

lemma toResult_ok {α : Type} {e : PResult α} {v : α} (h : toResult e = .ok v) :
    ∃ r, e = .ok r v := by
  cases e <;> simp_all [toResult]

lemma parse_sub_packet_header_ok {i r : List Nat} {sph : SubPacketHeader}
    (hp : parse_sub_packet_header i = .ok r sph) : r = i.drop 4 ∧ 4 ≤ i.length := by
  obtain ⟨r1, hd, h1, h2⟩ := pbind_ok hp
  obtain ⟨hr1, _, hlen⟩ := ptake_ok h1
  obtain ⟨hr, _⟩ := onSlice_ok h2
  exact ⟨hr.trans hr1, hlen⟩

/-- Shape of a successful sub-packet parse: a 4-byte sub-header, exactly
`length` payload bytes available, and the field decoder consuming the
payload completely. -/
lemma parse_sub_packet_ok {i r : List Nat} {d : SEOutputData}
    (hp : parse_sub_packet i = .ok r d) :
    ∃ sph : SubPacketHeader, parse_sub_packet_header i = .ok (i.drop 4) sph ∧
      sph.length + 4 ≤ i.length ∧
      parse_sub_packet_data sph.id ((i.drop 4).take sph.length) = .ok [] d ∧
      r = (i.drop 4).drop sph.length := by
  obtain ⟨r1, sph, h1, h2⟩ := pbind_ok hp
  obtain ⟨hr1, h4len⟩ := parse_sub_packet_header_ok h1
  obtain ⟨r2, data, h3, h4⟩ := pbind_ok h2
  obtain ⟨hr2, hdata, hlen2⟩ := ptake_ok h3
  obtain ⟨hr, r3, h5⟩ := onSlice_ok h4
  obtain ⟨hr3, h6⟩ := allConsuming_ok h5
  refine ⟨sph, hr1 ▸ h1, ?_, ?_, ?_⟩
  · have hx : r1.length = i.length - 4 := by rw [hr1]; simp
    omega
  · rw [← hr1, ← hdata]
    exact h6
  · rw [hr, hr2, hr1]

lemma parse_sub_packet_consumes {i r : List Nat} {d : SEOutputData}
    (hp : parse_sub_packet i = .ok r d) : r.length + 4 ≤ i.length := by
  obtain ⟨sph, _, hlen, _, hr⟩ := parse_sub_packet_ok hp
  have h1 : r.length = (i.drop 4).length - sph.length := by
    rw [hr]
    simp only [List.length_drop]
  have h2 : (i.drop 4).length = i.length - 4 := by simp
  omega

lemma subPacketsF_succ_cons (f a : Nat) (l : List Nat) :
    subPacketsF (f + 1) (a :: l) =
      match parse_sub_packet (a :: l) with
      | .ok r d =>
        match subPacketsF f r with
        | .ok r2 ds => .ok r2 (d :: ds)
        | e => castErr e
      | e => castErr e := rfl

/-- A successful sub-packet stream always ends exactly at the end of the
input (`eof`). -/
lemma subPacketsF_ok_rest : ∀ f i r ds, subPacketsF f i = .ok r ds → r = [] := by
  intro f
  induction f with
  | zero =>
    intro i r ds h
    exact absurd h (by simp [subPacketsF])
  | succ f ih =>
    intro i r ds h
    cases i with
    | nil =>
      have h2 : (PResult.ok [] [] : PResult (List SEOutputData)) = .ok r ds := h
      injection h2 with h1 _
      exact h1.symm
    | cons a l =>
      rw [subPacketsF_succ_cons] at h
      split at h
      next r1 d heq =>
        split at h
        next r2 ds2 hc =>
          injection h with h1 _
          exact h1 ▸ ih r1 r2 ds2 hc
        next => exact absurd h castErr_ne_ok
      next => exact absurd h castErr_ne_ok

/-- Fuel irrelevance for the sub-packet stream: each sub-packet consumes at
least 4 bytes, so any fuel above the input length suffices. -/
lemma subPacketsF_mono : ∀ f g i, i.length < f → i.length < g →
    subPacketsF f i = subPacketsF g i := by
  intro f
  induction f with
  | zero => intro g i hf; omega
  | succ f ih =>
    intro g i hf hg
    cases g with
    | zero => omega
    | succ g =>
      cases i with
      | nil => rfl
      | cons a l =>
        rw [subPacketsF_succ_cons, subPacketsF_succ_cons]
        split
        next r1 d heq =>
          have hcons := parse_sub_packet_consumes heq
          have hlen : (a :: l).length = l.length + 1 := by simp
          rw [ih g r1 (by omega) (by omega)]
        next => rfl

lemma subPackets_eq_subPacketsF {f : Nat} {i : List Nat} (h : i.length < f) :
    subPacketsF f i = subPackets i :=
  subPacketsF_mono f (i.length + 1) i h (by omega)

/-- C3.  For every `PacketHeader` with body length `L` and every body byte
slice, `parse_packet_data` returns a packet only if the sub-packet stream
consumes exactly `L` bytes (part 1, with the stream ending at `eof` on
exactly the first `L` bytes), each sub-packet decoder consuming exactly its
declared payload length (part 4); a short read (part 2) or a failing
sub-packet stream (part 3) yields `ParseFailedError` for the whole body —
never a partial packet. -/
theorem spec_c3_all_or_nothing (header : PacketHeader) (i : List Nat) :
    (∀ ds, parse_packet_data header i = .ok ds →
      header.length ≤ i.length ∧ subPackets (i.take header.length) = .ok [] ds) ∧
    (i.length < header.length → parse_packet_data header i = .err) ∧
    (subPackets (i.take header.length) = .err → parse_packet_data header i = .err) ∧
    (∀ r d, parse_sub_packet i = .ok r d →
      ∃ sph : SubPacketHeader, parse_sub_packet_header i = .ok (i.drop 4) sph ∧
        sph.length + 4 ≤ i.length ∧
        parse_sub_packet_data sph.id ((i.drop 4).take sph.length) = .ok [] d ∧
        r = (i.drop 4).drop sph.length) := by
  refine ⟨?_, ?_, ?_, fun r d h => parse_sub_packet_ok h⟩
  · intro ds h
    unfold parse_packet_data at h
    obtain ⟨r0, h0⟩ := toResult_ok h
    obtain ⟨r1, body, h1, h2⟩ := pbind_ok h0
    obtain ⟨hr1, hbody, hlen⟩ := ptake_ok h1
    obtain ⟨hr, r2, h3⟩ := onSlice_ok h2
    have hrest := subPacketsF_ok_rest (body.length + 1) body r2 ds h3
    refine ⟨hlen, ?_⟩
    rw [← hbody]
    rw [hrest] at h3
    exact h3
  · intro hshort
    simp only [parse_packet_data, pbind, ptake]
    rw [if_neg (by omega)]
    rfl
  · intro hsub
    by_cases hL : header.length ≤ i.length
    · simp only [parse_packet_data, pbind, ptake]
      rw [if_pos hL]
      simp only [onSlice]
      rw [hsub]
      rfl
    · simp only [parse_packet_data, pbind, ptake]
      rw [if_neg hL]
      rfl

theorem spec_c3_witness :
    (8 ≤ ([0, 1, 0, 4, 0, 0, 0x45, 0x9B] : List Nat).length ∧
      subPackets (([0, 1, 0, 4, 0, 0, 0x45, 0x9B] : List Nat).take 8) =
        .ok [] [SEOutputData.SEFrameNumber 17819]) ∧
    parse_packet_data (PacketHeader.mk 5) [] = .err ∧
    parse_packet_data (PacketHeader.mk 4) [0, 2, 0, 0] = .err :=
  ⟨(spec_c3_all_or_nothing (PacketHeader.mk 8) [0, 1, 0, 4, 0, 0, 0x45, 0x9B]).1
      [SEOutputData.SEFrameNumber 17819] (by rfl),
   (spec_c3_all_or_nothing (PacketHeader.mk 5) []).2.1 (by decide),
   (spec_c3_all_or_nothing (PacketHeader.mk 4) [0, 2, 0, 0]).2.2.1 (by rfl)⟩

/-!  Round-trip: well-formed sub-packet encodings parse to their fields.  -/

lemma ptake_exact {n : Nat} (s t : List Nat) (h : s.length = n) :
    ptake n (s ++ t) = .ok t s := by
  simp only [ptake]
  rw [if_pos (by rw [List.length_append]; omega)]
  rw [List.take_left' h, List.drop_left' h]

lemma ptag_exact (s t : List Nat) : ptag s (s ++ t) = .ok t s := by
  simp only [ptag]
  rw [if_pos (by simp)]
  rw [if_pos (by rw [List.take_left]), List.drop_left]

lemma parse_u16_cons (a b : Nat) (t : List Nat) :
    parse_u16 (a :: b :: t) = .ok t (256 * a + b) := by
  simp only [parse_u16, beNat]
  rw [if_pos (by simp only [List.length_cons]; omega)]
  simp [List.foldl]

/-- A byte list `s` is a wire encoding of the decoded field `d`: a known
u16 field id, a u16 payload length, and a payload the field decoder
consumes completely. -/
def WellFormedSub (s : List Nat) (d : SEOutputData) : Prop :=
  ∃ idv id payload, outputIdOfU16 idv = some id ∧ idv < 65536 ∧
    payload.length < 65536 ∧
    parse_sub_packet_data id payload = PResult.ok [] d ∧
    s = idv / 256 :: idv % 256 :: payload.length / 256 :: payload.length % 256 :: payload

lemma parse_sub_packet_header_encode {idv len : Nat} {id : SEOutputDataId}
    (hid : outputIdOfU16 idv = some id) (t : List Nat) :
    parse_sub_packet_header (idv / 256 :: idv % 256 :: len / 256 :: len % 256 :: t) =
      .ok t (SubPacketHeader.mk id len) := by
  have h4 : ptake 4 (idv / 256 :: idv % 256 :: len / 256 :: len % 256 :: t) =
      .ok t [idv / 256, idv % 256, len / 256, len % 256] :=
    ptake_exact [idv / 256, idv % 256, len / 256, len % 256] t rfl
  have h16a : parse_u16 [idv / 256, idv % 256, len / 256, len % 256] =
      .ok [len / 256, len % 256] idv := by
    rw [parse_u16_cons, Nat.div_add_mod]
  have h16b : parse_u16 [len / 256, len % 256] = .ok [] len := by
    rw [parse_u16_cons, Nat.div_add_mod]
  simp only [parse_sub_packet_header, pbind, onSlice, allConsuming, pmapRes, pmap]
  simp only [h4, h16a, hid, h16b]

lemma sub_parses {s : List Nat} {d : SEOutputData} (h : WellFormedSub s d)
    (rest : List Nat) : parse_sub_packet (s ++ rest) = .ok rest d := by
  obtain ⟨idv, id, payload, hid, _, _, hdec, hs⟩ := h
  subst hs
  simp only [List.cons_append]
  simp only [parse_sub_packet, pbind, parse_sub_packet_header_encode hid]
  simp only [ptake_exact payload rest rfl]
  simp only [onSlice, allConsuming, hdec]

lemma wellFormedSub_length {s : List Nat} {d : SEOutputData}
    (h : WellFormedSub s d) : 4 ≤ s.length := by
  obtain ⟨idv, id, payload, _, _, _, _, hs⟩ := h
  subst hs
  simp

lemma subPackets_chain {ss : List (List Nat)} {ds : List SEOutputData}
    (h : List.Forall₂ WellFormedSub ss ds) :
    ∀ f, ss.flatten.length < f → subPacketsF f ss.flatten = .ok [] ds := by
  induction h with
  | nil =>
    intro f hf
    cases f with
    | zero => omega
    | succ f => rfl
  | cons hsd htail ih =>
    rename_i s d ss2 ds2
    intro f hf
    have hlen4 : 4 ≤ s.length := wellFormedSub_length hsd
    rw [List.flatten_cons] at hf ⊢
    cases f with
    | zero => omega
    | succ f =>
      cases s with
      | nil => simp at hlen4
      | cons a s2 =>
        rw [List.cons_append, subPacketsF_succ_cons]
        have hps := sub_parses hsd ss2.flatten
        rw [List.cons_append] at hps
        have hrec : subPacketsF f ss2.flatten = .ok [] ds2 := by
          refine ih f ?_
          rw [List.length_append, List.length_cons] at hf
          omega
        simp only [hps, hrec]

lemma parse_packet_header_encode (L : Nat) (t : List Nat) :
    parse_packet_header (0x53 :: 0x45 :: 0x50 :: 0x44 :: 0x00 :: 0x04 ::
      L / 256 :: L % 256 :: t) = .ok (PacketHeader.mk L) := by
  have h1 : ptag [0x53, 0x45, 0x50, 0x44]
      (0x53 :: 0x45 :: 0x50 :: 0x44 :: 0x00 :: 0x04 :: L / 256 :: L % 256 :: t) =
      .ok (0x00 :: 0x04 :: L / 256 :: L % 256 :: t) [0x53, 0x45, 0x50, 0x44] :=
    ptag_exact [0x53, 0x45, 0x50, 0x44] (0x00 :: 0x04 :: L / 256 :: L % 256 :: t)
  have h2 : ptag [0x00, 0x04] (0x00 :: 0x04 :: L / 256 :: L % 256 :: t) =
      .ok (L / 256 :: L % 256 :: t) [0x00, 0x04] :=
    ptag_exact [0x00, 0x04] (L / 256 :: L % 256 :: t)
  have h3 : parse_u16 (L / 256 :: L % 256 :: t) = .ok t L := by
    rw [parse_u16_cons, Nat.div_add_mod]
  simp only [parse_packet_header, pbind, pmap]
  simp only [h1, h2, h3]
  rfl

/-- C5.  For every body length `L` and every sequence of well-formed
sub-packet encodings whose lengths sum to `L`, parsing a packet made of the
8-byte header followed by those encodings yields exactly the ordered field
sequence (duplicates and wire order preserved) while consuming precisely
`8 + L` bytes: any `extra` bytes past the body leave the result unchanged. -/
theorem spec_c5_roundtrip (ss : List (List Nat)) (ds : List SEOutputData)
    (extra : List Nat) (L : Nat) (hwf : List.Forall₂ WellFormedSub ss ds)
    (hL : L = (ss.map List.length).sum) (hu16 : L < 65536) :
    parse_packet (0x53 :: 0x45 :: 0x50 :: 0x44 :: 0x00 :: 0x04 ::
      L / 256 :: L % 256 :: (ss.flatten ++ extra)) = .ok ds := by
  have hflat : ss.flatten.length = L := by rw [hL, List.length_flatten]
  unfold parse_packet
  rw [parse_packet_header_encode]
  show parse_packet_data (PacketHeader.mk L) (ss.flatten ++ extra) = .ok ds
  simp only [parse_packet_data, pbind]
  rw [ptake_exact ss.flatten extra hflat]
  simp only [onSlice]
  have hsub : subPackets ss.flatten = .ok [] ds := by
    unfold subPackets
    exact subPackets_chain hwf _ (by omega)
  simp only [hsub]
  rfl

theorem spec_c5_witness :
    List.Forall₂ WellFormedSub [[0, 1, 0, 4, 0, 0, 0x45, 0x9B]]
      [SEOutputData.SEFrameNumber 17819] ∧
    (8 : Nat) = ([[0, 1, 0, 4, 0, 0, 0x45, 0x9B]].map List.length).sum ∧
    (8 : Nat) < 65536 ∧
    parse_packet (0x53 :: 0x45 :: 0x50 :: 0x44 :: 0x00 :: 0x04 ::
      8 / 256 :: 8 % 256 ::
        (([[0, 1, 0, 4, 0, 0, 0x45, 0x9B]] : List (List Nat)).flatten ++ [7])) =
      .ok [SEOutputData.SEFrameNumber 17819] := by
  have hwf : List.Forall₂ WellFormedSub [[0, 1, 0, 4, 0, 0, 0x45, 0x9B]]
      [SEOutputData.SEFrameNumber 17819] :=
    List.Forall₂.cons
      ⟨1, SEOutputDataId.SEFrameNumber, [0, 0, 0x45, 0x9B], rfl, by decide, by decide,
        rfl, rfl⟩
      List.Forall₂.nil
  exact ⟨hwf, by decide, by decide,
    spec_c5_roundtrip [[0, 1, 0, 4, 0, 0, 0x45, 0x9B]] [SEOutputData.SEFrameNumber 17819]
      [7] 8 hwf (by decide) (by decide)⟩

/-- C4.  An 8-byte input parses as a packet header exactly when bytes 0–3
are the magic "SEPD" and bytes 4–5 are the protocol type `0x0004`; the
length is then the big-endian u16 of bytes 6–7, and any mismatch in the
first 6 bytes is a `ParseFailedError`. -/
theorem spec_c4_packet_header (b0 b1 b2 b3 b4 b5 b6 b7 : Nat) :
    parse_packet_header [b0, b1, b2, b3, b4, b5, b6, b7] =
      if b0 = 0x53 ∧ b1 = 0x45 ∧ b2 = 0x50 ∧ b3 = 0x44 ∧ b4 = 0x00 ∧ b5 = 0x04
      then .ok (PacketHeader.mk (256 * b6 + b7)) else .err := by
  by_cases hA : b0 = 0x53 ∧ b1 = 0x45 ∧ b2 = 0x50 ∧ b3 = 0x44
  · obtain ⟨e0, e1, e2, e3⟩ := hA
    subst e0; subst e1; subst e2; subst e3
    by_cases hB : b4 = 0x00 ∧ b5 = 0x04
    · obtain ⟨e4, e5⟩ := hB
      subst e4; subst e5
      rw [if_pos (by simp)]
      have h1 : ptag [0x53, 0x45, 0x50, 0x44]
          [0x53, 0x45, 0x50, 0x44, 0x00, 0x04, b6, b7] =
          .ok [0x00, 0x04, b6, b7] [0x53, 0x45, 0x50, 0x44] :=
        ptag_exact [0x53, 0x45, 0x50, 0x44] [0x00, 0x04, b6, b7]
      have h2 : ptag [0x00, 0x04] [0x00, 0x04, b6, b7] = .ok [b6, b7] [0x00, 0x04] :=
        ptag_exact [0x00, 0x04] [b6, b7]
      have h3 : parse_u16 [b6, b7] = .ok [] (256 * b6 + b7) := parse_u16_cons b6 b7 []
      simp only [parse_packet_header, pbind, pmap]
      simp only [h1, h2, h3]
      rfl
    · rw [if_neg (by tauto)]
      have h1 : ptag [0x53, 0x45, 0x50, 0x44] [0x53, 0x45, 0x50, 0x44, b4, b5, b6, b7] =
          .ok [b4, b5, b6, b7] [0x53, 0x45, 0x50, 0x44] :=
        ptag_exact [0x53, 0x45, 0x50, 0x44] [b4, b5, b6, b7]
      have h2 : ptag [0x00, 0x04] [b4, b5, b6, b7] = .err := by
        simp only [ptag]
        rw [if_pos (by simp)]
        rw [if_neg (by simp_all)]
      simp only [parse_packet_header, pbind, pmap]
      simp only [h1, h2]
      rfl
  · rw [if_neg (by tauto)]
    have h1 : ptag [0x53, 0x45, 0x50, 0x44] [b0, b1, b2, b3, b4, b5, b6, b7] = .err := by
      simp only [ptag]
      rw [if_pos (by simp)]
      rw [if_neg (by simp_all)]
    simp only [parse_packet_header, pbind, pmap]
    simp only [h1]
    rfl

/-!  Resynchronisation of the TCP reader.  -/

lemma seekHeader_cons (b : Nat) (rest : List Nat) :
    seekHeader (b :: rest) =
      match parse_packet_header (List.take 8 (b :: rest)) with
      | .ok header => some (0, header)
      | _ => Option.map (fun p => (p.1 + 1, p.2)) (seekHeader rest) := rfl

lemma seekHeader_found : ∀ (garbage packet : List Nat) (header : PacketHeader),
    (∀ j, j < garbage.length →
      parse_packet_header (((garbage ++ packet).drop j).take 8) = .err) →
    parse_packet_header (packet.take 8) = .ok header →
    packet ≠ [] →
    seekHeader (garbage ++ packet) = some (garbage.length, header) := by
  intro garbage
  induction garbage with
  | nil =>
    intro packet header _ hok hne
    cases packet with
    | nil => exact absurd rfl hne
    | cons a l =>
      rw [List.nil_append, seekHeader_cons]
      simp only [hok]
      rfl
  | cons g gs ih =>
    intro packet header hg hok hne
    rw [List.cons_append, seekHeader_cons]
    have h0 : parse_packet_header (List.take 8 (g :: (gs ++ packet))) = .err := by
      have h := hg 0 (by simp)
      rw [List.cons_append] at h
      simpa using h
    have hshift : ∀ j, j < gs.length →
        parse_packet_header (((gs ++ packet).drop j).take 8) = .err := by
      intro j hj
      have h := hg (j + 1) (by simp only [List.length_cons]; omega)
      rw [List.cons_append, List.drop_succ_cons] at h
      exact h
    simp only [h0]
    rw [ih packet header hshift hok hne]
    rfl

/-- C6.  A stream of `k` garbage bytes (bytes on which every 8-byte header
window starting before the packet fails validation) followed by a fully
valid packet makes the `next()` resynchronisation loop perform exactly `k`
single-byte consumes — one per failed header peek — before consuming the
8-byte header and yielding that packet. -/
theorem spec_c6_resync (garbage packet : List Nat) (header : PacketHeader)
    (ds : List SEOutputData)
    (hg : ∀ j, j < garbage.length →
      parse_packet_header (((garbage ++ packet).drop j).take 8) = .err)
    (hok : parse_packet_header (packet.take 8) = .ok header)
    (hbody : header.length + 8 ≤ packet.length)
    (hds : parse_packet_data header ((packet.drop 8).take header.length) = .ok ds) :
    tcpNext (garbage ++ packet) = some (garbage.length, .ok ds) := by
  have hne : packet ≠ [] := by
    intro h
    subst h
    simp at hbody
  unfold tcpNext
  rw [seekHeader_found garbage packet header hg hok hne]
  have hdrop : (garbage ++ packet).drop (garbage.length + PACKET_HEADER_SIZE) =
      packet.drop 8 := by
    rw [List.drop_append]
    rfl
  simp only [hdrop]
  rw [if_pos (by simp only [List.length_drop]; omega)]
  rw [hds]

theorem spec_c6_witness :
    (∀ j, j < List.length [0x99] →
      parse_packet_header (((([0x99] : List Nat) ++ [0x53, 0x45, 0x50, 0x44, 0x00, 0x04,
        0x00, 0x08, 0x00, 0x01, 0x00, 0x04, 0x00, 0x00, 0x45, 0x9B]).drop j).take 8) =
        .err) ∧
    tcpNext ([0x99] ++ [0x53, 0x45, 0x50, 0x44, 0x00, 0x04, 0x00, 0x08,
      0x00, 0x01, 0x00, 0x04, 0x00, 0x00, 0x45, 0x9B]) =
      some (1, .ok [SEOutputData.SEFrameNumber 17819]) :=
  ⟨by decide,
   spec_c6_resync [0x99]
     [0x53, 0x45, 0x50, 0x44, 0x00, 0x04, 0x00, 0x08,
      0x00, 0x01, 0x00, 0x04, 0x00, 0x00, 0x45, 0x9B]
     (PacketHeader.mk 8) [SEOutputData.SEFrameNumber 17819]
     (by decide) (by rfl) (by decide) (by rfl)⟩

/-- C7.  Counter-evidence for "WouldBlock is idempotent": on a fresh reader
with an empty non-blocking source, the first `peek(8)` surfaces `WouldBlock`
but leaves the buffer grown by 8 zero bytes (the `resize` in `grow` is not
rolled back when `read_exact` fails), and the second `peek(8)` then returns
those fabricated zero bytes instead of `WouldBlock` without touching the
socket. -/
theorem spec_c7_wouldblock_bug :
    (peekEmpty readerNew 8).2 = PeekResult.wouldBlock ∧
    (peekEmpty readerNew 8).1 ≠ readerNew ∧
    (peekEmpty (peekEmpty readerNew 8).1 8).2 = PeekResult.bytes (List.replicate 8 0) ∧
    (peekEmpty (peekEmpty readerNew 8).1 8).2 ≠ PeekResult.wouldBlock := by
  refine ⟨by decide, by decide, by decide, by decide⟩

/-- C8.  The sixteen-byte example packet decodes to the one-element packet
`[SEFrameNumber 17819]`. -/
theorem spec_c8_frame_number_packet :
    parse_packet [0x53, 0x45, 0x50, 0x44, 0x00, 0x04, 0x00, 0x08,
      0x00, 0x01, 0x00, 0x04, 0x00, 0x00, 0x45, 0x9B] =
      .ok [SEOutputData.SEFrameNumber 17819] := rfl

/-- C9.  `next()` outside the `Connected` state and `connect()` outside the
`Pending` state die on the fail-fast invalid-state arm before any socket
I/O is attempted; in the legal states both proceed to I/O. -/
theorem spec_c9_state_machine :
    (∀ addr, nextStep (TCPClientStateM.pending addr) = ClientStep.panicInvalidState) ∧
    nextStep TCPClientStateM.disconnected = ClientStep.panicInvalidState ∧
    (∀ reader, connectStep (TCPClientStateM.connected reader) =
      ClientStep.panicInvalidState) ∧
    connectStep TCPClientStateM.disconnected = ClientStep.panicInvalidState ∧
    (∀ addr, connectStep (TCPClientStateM.pending addr) = ClientStep.io) ∧
    (∀ reader, nextStep (TCPClientStateM.connected reader) = ClientStep.io) :=
  ⟨fun _ => rfl, rfl, fun _ => rfl, rfl, fun _ => rfl, fun _ => rfl⟩

/-- C1 (amended).  A u16 presence flag of 0 decodes the optional to absent,
consuming exactly the 2 flag bytes; a flag of 1 decodes the full body; any
other flag value makes the decoder panic (`unimplemented!` in the source),
it does not return an `InvalidPacket` error. -/
theorem spec_c1_optional_flag (b0 b1 : Nat) (r : List Nat) :
    (parse_world_intersection (b0 :: b1 :: r) =
      if 256 * b0 + b1 = 0 then .ok r none
      else if 256 * b0 + b1 = 1 then pmap parse_world_intersection_item some r
      else .panic) ∧
    (parse_user_marker (b0 :: b1 :: r) =
      if 256 * b0 + b1 = 0 then .ok r none
      else if 256 * b0 + b1 = 1 then pmap parse_user_marker_item some r
      else .panic) := by
  constructor
  · simp only [parse_world_intersection, pbind]
    rw [parse_u16_cons]
    generalize 256 * b0 + b1 = n
    cases n with
    | zero => simp
    | succ m =>
      cases m with
      | zero => simp
      | succ k => simp
  · simp only [parse_user_marker, pbind]
    rw [parse_u16_cons]
    generalize 256 * b0 + b1 = n
    cases n with
    | zero => simp
    | succ m =>
      cases m with
      | zero => simp
      | succ k => simp

/-- C1 counterexample.  On a presence flag of 2 the optional decoders panic
(`unimplemented!` in the source); they do not return the `InvalidPacket`
error result the claim asserts. -/
theorem spec_c1_counterexample :
    parse_world_intersection [0, 2] = .panic ∧
    parse_world_intersection [0, 2] ≠ .err ∧
    parse_user_marker [0, 2] = .panic ∧
    parse_user_marker [0, 2] ≠ .err :=
  ⟨rfl, by decide, rfl, by decide⟩

lemma parse_variant_cons (b0 b1 : Nat) (r : List Nat) :
    parse_variant (b0 :: b1 :: r) =
      pbind (pmapRes parse_u16 toSETypeId) (variantArmF (r.length + 2)) (b0 :: b1 :: r) := by
  unfold parse_variant
  have h : (b0 :: b1 :: r).length + 1 = (r.length + 2) + 1 := by simp
  rw [h, parse_variantF_succ]

/-- C2 (amended).  The reserved field ids (`SETrackingState`,
`SEEyeglassesStatus`, `SEReflexReductionStateDEPRECATED`) and the reserved
type tags (`PacketHeader` `0x0F`, `SubPacketHeader` `0x10`, `Matrix3X3`
`0x12`, `Matrix2x2` `0x13`) make the decoders panic (`unimplemented!` /
`todo!` in the source) on every input; the item is never silently skipped,
but neither is a `NotImplemented` error result produced. -/
theorem spec_c2_reserved (i : List Nat) :
    parse_sub_packet_data SEOutputDataId.SETrackingState i = .panic ∧
    parse_sub_packet_data SEOutputDataId.SEEyeglassesStatus i = .panic ∧
    parse_sub_packet_data SEOutputDataId.SEReflexReductionStateDEPRECATED i = .panic ∧
    parse_variant (0x00 :: 0x0F :: i) = .panic ∧
    parse_variant (0x00 :: 0x10 :: i) = .panic ∧
    parse_variant (0x00 :: 0x12 :: i) = .panic ∧
    parse_variant (0x00 :: 0x13 :: i) = .panic := by
  refine ⟨rfl, rfl, rfl, ?_, ?_, ?_, ?_⟩ <;>
    (rw [parse_variant_cons]; simp only [pbind, pmapRes]; rw [parse_u16_cons]; rfl)

/-- C2 counterexample.  At concrete inputs the reserved id and the reserved
tag `0x0F` panic rather than fail with an error result. -/
theorem spec_c2_counterexample :
    parse_sub_packet_data SEOutputDataId.SETrackingState [] = .panic ∧
    parse_sub_packet_data SEOutputDataId.SETrackingState [] ≠ .err ∧
    parse_variant [0x00, 0x0F] = .panic ∧
    parse_variant [0x00, 0x0F] ≠ .err :=
  ⟨rfl, by show (PResult.panic : PResult SEOutputData) ≠ .err; simp,
   rfl, by show (PResult.panic : PResult SEVariant) ≠ .err; simp⟩

/-- C10.  The recursive variant decoder terminates on every finite input:
any fuel above the input length is never exhausted and computes the same
result as the canonical `parse_variant` (the recursion depth is bounded by
the input length), and every successful decode consumes at least the 2-byte
type tag, so each recursive call operates on a strictly shorter input. -/
theorem spec_c10_variant_termination (i : List Nat) :
    (∀ f, i.length < f →
      parse_variantF f i = parse_variant i ∧ parse_variantF f i ≠ .fuel) ∧
    (∀ r v, parse_variant i = .ok r v → r.length + 2 ≤ i.length) :=
  ⟨fun f hf => ⟨parse_variantF_eq_parse_variant hf, parse_variantF_ne_fuel f i hf⟩,
   fun _ _ h => parse_variant_consumes h⟩

theorem spec_c10_witness :
    List.length [0, 0, 7] < 4 ∧
    (parse_variantF 4 [0, 0, 7] = parse_variant [0, 0, 7] ∧
      parse_variantF 4 [0, 0, 7] ≠ .fuel) ∧
    parse_variant [0, 0, 7] = .ok [] (SEVariant.U8 7) ∧
    List.length ([] : List Nat) + 2 ≤ List.length [0, 0, 7] :=
  ⟨by decide, (spec_c10_variant_termination [0, 0, 7]).1 4 (by decide), rfl,
   (spec_c10_variant_termination [0, 0, 7]).2 [] (SEVariant.U8 7) rfl⟩

end SepData
